import Mathlib

/-!
Verification of the free-text response decoder of src/bi_analyzer.py
(method BusinessAnalyzer._parse_response, lines 178-249).

Python strings are modelled as lists of characters (PyStr).  Each string
operation used by the source (strip, split, startswith, replace, in,
indexing, slicing) is given a faithful Lean counterpart.  The one fallible
operation of the scan, the indexing expression line.split(".", 1)[1], which
raises IndexError when the line contains no period, is modelled by an
Except value; the try/except wrapper of the source catches every such
fault and returns the empty result.
-/

/-- Python strings, modelled as lists of characters. -/
abbrev PyStr := List Char

/-- The ASCII whitespace characters stripped by Python str.strip(). -/
def isPySpace (c : Char) : Bool :=
  c == ' ' || c == '\t' || c == '\n' || c == '\r' || c == '\x0b' || c == '\x0c'

/-- Python str.lstrip(): drop leading whitespace. -/
def lstrip (s : PyStr) : PyStr := s.dropWhile isPySpace

/-- Python str.rstrip(): drop trailing whitespace. -/
def rstrip (s : PyStr) : PyStr := (s.reverse.dropWhile isPySpace).reverse

/-- Python str.strip(): drop leading and trailing whitespace. -/
def pyStrip (s : PyStr) : PyStr := rstrip (lstrip s)

/-- Python s.startswith(p). -/
def startsWith : PyStr → PyStr → Bool
  | [], _ => true
  | _ :: _, [] => false
  | p :: ps, c :: cs => p == c && startsWith ps cs

/-- Python s.split(sep, 1) when sep is a single character: some (before, after)
at the first occurrence, none when the character does not occur (in which case
Python's [1] indexing raises IndexError). -/
def splitFirst (c : Char) : PyStr → Option (PyStr × PyStr)
  | [] => none
  | x :: xs =>
    if x == c then some ([], xs)
    else (splitFirst c xs).map (fun pr => (x :: pr.1, pr.2))

/-- Python s.split(sep) for a single-character separator: all segments,
empty segments kept. -/
def splitAllChar (c : Char) : PyStr → List PyStr
  | [] => [[]]
  | x :: xs =>
    if x == c then [] :: splitAllChar c xs
    else
      match splitAllChar c xs with
      | [] => [[x]]
      | h :: t => (x :: h) :: t

/-- Python s.replace("**", ""): remove non-overlapping occurrences of two
consecutive asterisks, scanning left to right. -/
def replaceStarStar : PyStr → PyStr
  | [] => []
  | [c] => [c]
  | c :: d :: rest =>
    if c = '*' ∧ d = '*' then replaceStarStar rest
    else c :: replaceStarStar (d :: rest)

/-- line[0].isdigit() of the source, on the ASCII digits. -/
def firstIsDigit : PyStr → Bool
  | [] => false
  | c :: _ => c.isDigit

/-- In-place update of the last element of a list, modelling Python's
xs[-1] += suffix. -/
def updateLast (f : PyStr → PyStr) : List PyStr → List PyStr
  | [] => []
  | [x] => [f x]
  | x :: xs => x :: updateLast f xs

/-- Insight record: the per-keyword value stored in structured_insights,
a dict with keys "titles" and "insights" in the source (lines 206-209). -/
structure Insight where
  titles : List PyStr
  insights : List PyStr
deriving DecidableEq, Repr

/-- Python dict lookup on the insertion-ordered association list model. -/
def dictGet (k : PyStr) : List (PyStr × Insight) → Option Insight
  | [] => none
  | p :: ps => if p.1 == k then some p.2 else dictGet k ps

/-- Python dict assignment d[k] = v: replace the value in place when the key
is present, otherwise append the pair at the end (insertion order). -/
def dictSet (d : List (PyStr × Insight)) (k : PyStr) (v : Insight) :
    List (PyStr × Insight) :=
  if d.any (fun p => p.1 == k) then
    d.map (fun p => if p.1 == k then (p.1, v) else p)
  else d ++ [(k, v)]

/-- The mode variable of the scan: None, "keywords", "titles", "insights". -/
inductive Mode where
  | nothing
  | keywords
  | titles
  | insights
deriving DecidableEq, Repr

/-- The loop state of _parse_response (source lines 182-187). -/
structure ScanState where
  keywords : List PyStr
  structured_insights : List (PyStr × Insight)
  current_keyword : Option PyStr
  mode : Mode
  current_titles : List PyStr
  current_insights : List PyStr
deriving DecidableEq, Repr

/-- Initial loop state (source lines 182-187). -/
def initState : ScanState :=
  { keywords := [], structured_insights := [], current_keyword := none,
    mode := Mode.nothing, current_titles := [], current_insights := [] }

/-- Python truthiness of current_keyword in `if current_keyword and ...`:
set and non-empty. -/
def kwTruthy : Option PyStr → Bool
  | some k => !k.isEmpty
  | none => false

/-- The literal "**KEYWORDS IDENTIFIED:**" (source line 194). -/
def kwMarkerStr : PyStr := ("**KEYWORDS IDENTIFIED:**").data

/-- The literal "**" (source lines 198, 212, 236). -/
def starStarStr : PyStr := ("**").data

/-- The literal "**KEYWORD" (source line 204). -/
def kwHeaderStr : PyStr := ("**KEYWORD").data

/-- The literal "**INSIGHTS:**" (source line 217). -/
def titlesMarkerStr : PyStr := ("**INSIGHTS:**").data

/-- The literal "**ACTIONS:**" (source line 221). -/
def actionsMarkerStr : PyStr := ("**ACTIONS:**").data

/-- The literal "- " (source lines 226, 232). -/
def dashSpaceStr : PyStr := ("- ").data

/-- Source lines 199-200: strip brackets, split on comma, strip each piece,
keep the non-empty pieces. -/
def parseKeywordList (line : PyStr) : List PyStr :=
  let keywordLine := (line.filter (fun c => c != '[')).filter (fun c => c != ']')
  ((splitAllChar ',' keywordLine).map pyStrip).filter (fun k => !k.isEmpty)

/-- Block close (source lines 205-209 and 239-243): when current_keyword is
truthy and an accumulator is non-empty, store the accumulators under the
current keyword, overwriting any prior entry. -/
def closeBlock (st : ScanState) : ScanState :=
  match st.current_keyword with
  | some k =>
    if !k.isEmpty && (!st.current_titles.isEmpty || !st.current_insights.isEmpty) then
      let v := Insight.mk st.current_titles st.current_insights
      { st with structured_insights := dictSet st.structured_insights k v }
    else st
  | none => st

/-- One iteration of the for-loop of _parse_response (source lines 189-237).
Except.error models an uncaught IndexError from line.split(".", 1)[1]. -/
def step (st : ScanState) (raw : PyStr) : Except Unit ScanState :=
  let line := pyStrip raw
  if line = [] then Except.ok st
  else if startsWith kwMarkerStr line = true then
    Except.ok { st with mode := Mode.keywords }
  else if st.mode = Mode.keywords ∧ startsWith starStarStr line = false then
    Except.ok { st with keywords := parseKeywordList line, mode := Mode.nothing }
  else if startsWith kwHeaderStr line = true ∧ line.elem ':' = true then
    let st1 := closeBlock st
    match splitFirst ':' line with
    | some pr =>
      Except.ok { st1 with
        current_keyword := some (pyStrip (replaceStarStar (pyStrip pr.2))),
        current_titles := [], current_insights := [] }
    | none => Except.error ()
  else if startsWith titlesMarkerStr line = true then
    Except.ok { st with mode := Mode.titles }
  else if startsWith actionsMarkerStr line = true then
    Except.ok { st with mode := Mode.insights }
  else if st.mode = Mode.titles ∧ kwTruthy st.current_keyword = true then
    if firstIsDigit line = true then
      match splitFirst '.' line with
      | some pr =>
        let content := pyStrip pr.2
        if content = [] then Except.ok st
        else Except.ok { st with current_titles := st.current_titles ++ [content] }
      | none => Except.error ()
    else if startsWith dashSpaceStr line = true then
      let content := pyStrip (line.drop 2)
      if content = [] then Except.ok st
      else Except.ok { st with current_titles := st.current_titles ++ [content] }
    else Except.ok st
  else if st.mode = Mode.insights ∧ kwTruthy st.current_keyword = true then
    if firstIsDigit line = true then
      match splitFirst '.' line with
      | some pr =>
        let content := pyStrip pr.2
        if content = [] then Except.ok st
        else Except.ok { st with current_insights := st.current_insights ++ [content] }
      | none => Except.error ()
    else if startsWith dashSpaceStr line = true then
      let content := pyStrip (line.drop 2)
      if content = [] then Except.ok st
      else Except.ok { st with current_insights := st.current_insights ++ [content] }
    else if st.current_insights ≠ [] ∧ startsWith starStarStr line = false then
      Except.ok { st with
        current_insights := updateLast (fun x => x ++ ' ' :: line) st.current_insights }
    else Except.ok st
  else Except.ok st

/-- The for-loop over all lines. -/
def scanLines (st : ScanState) : List PyStr → Except Unit ScanState
  | [] => Except.ok st
  | l :: ls =>
    match step st l with
    | Except.ok st' => scanLines st' ls
    | Except.error e => Except.error e

/-- response.strip().split("\n") (source line 181). -/
def pyLines (s : PyStr) : List PyStr := splitAllChar '\n' (pyStrip s)

/-- The result of _parse_response.  The source returns a dict with keys
"keywords" and "structured_insights" and no "error" key in either branch;
an absent error key is modelled as none. -/
structure ParseResult where
  keywords : List PyStr
  structured_insights : List (PyStr × Insight)
  error : Option PyStr
deriving DecidableEq, Repr

/-- The fallback returned by the except-branch (source line 249). -/
def failResult : ParseResult :=
  { keywords := [], structured_insights := [], error := none }

/-- _parse_response (source lines 178-249): scan all lines, perform the final
block close, and assemble the result; any fault of the scan is caught and the
empty result is returned. -/
def parse_response (s : PyStr) : ParseResult :=
  match scanLines initState (pyLines s) with
  | Except.ok st =>
    let fin := closeBlock st
    { keywords := fin.keywords, structured_insights := fin.structured_insights,
      error := none }
  | Except.error _ => failResult

/-! ### Helper lemmas on the string primitives -/

theorem rstrip_eq_rdropWhile (s : PyStr) : rstrip s = List.rdropWhile isPySpace s := rfl

theorem lstrip_cons_not_space (c : Char) (s : PyStr) (h : isPySpace c = false) :
    lstrip (c :: s) = c :: s := by
  simp [lstrip, List.dropWhile_cons, h]

theorem rstrip_append_keep (a b : PyStr) (hb : rstrip b = b) (hne : b ≠ []) :
    rstrip (a ++ b) = a ++ b := by
  rw [rstrip_eq_rdropWhile] at hb ⊢
  rw [List.rdropWhile_eq_self_iff] at hb ⊢
  intro hl
  have hlast : (a ++ b).getLast hl = b.getLast hne := List.getLast_append_of_ne_nil hne
  rw [hlast]
  exact hb hne

theorem strip_parts (s : PyStr) (h : pyStrip s = s) : lstrip s = s ∧ rstrip s = s := by
  have hsuf : lstrip s <:+ s := List.dropWhile_suffix _
  have hlen1 : (lstrip s).length ≤ s.length := hsuf.length_le
  have hpre : rstrip (lstrip s) <+: lstrip s := by
    rw [rstrip_eq_rdropWhile]; exact List.rdropWhile_prefix _ _
  have hlen2 : (rstrip (lstrip s)).length ≤ (lstrip s).length := hpre.length_le
  have heq : rstrip (lstrip s) = s := h
  have hlen3 : s.length ≤ (lstrip s).length := by
    conv_lhs => rw [← heq]
    exact hlen2
  have hls : lstrip s = s := hsuf.eq_of_length (Nat.le_antisymm hlen1 hlen3)
  refine ⟨hls, ?_⟩
  rw [← hls]
  calc rstrip (lstrip s) = s := heq
    _ = lstrip s := hls.symm

theorem strip_head_not_space (c : Char) (r : PyStr) (h : pyStrip (c :: r) = c :: r) :
    isPySpace c = false := by
  have hls := (strip_parts _ h).1
  by_contra hcon
  have hsp : isPySpace c = true := by
    cases hx : isPySpace c with
    | false => exact absurd hx hcon
    | true => rfl
  have : lstrip (c :: r) = lstrip r := by simp [lstrip, List.dropWhile_cons, hsp]
  rw [hls] at this
  have hlen : (c :: r).length ≤ r.length := by
    rw [this]; exact (List.dropWhile_suffix _).length_le
  simp at hlen

theorem pyStrip_keep (s : PyStr) (c : Char) (m a b : PyStr)
    (hs : s = c :: m) (hc : isPySpace c = false) (hsplit : s = a ++ b)
    (hb : rstrip b = b) (hne : b ≠ []) : pyStrip s = s := by
  have h1 : lstrip s = s := by rw [hs]; exact lstrip_cons_not_space c m hc
  have h2 : rstrip s = s := by rw [hsplit]; exact rstrip_append_keep a b hb hne
  rw [pyStrip, h1, h2]

theorem splitFirst_cons_self (c : Char) (r : PyStr) : splitFirst c (c :: r) = some ([], r) := by
  simp [splitFirst]

theorem splitFirst_cons_ne (c x : Char) (r : PyStr) (h : x ≠ c) :
    splitFirst c (x :: r) = (splitFirst c r).map (fun pr => (x :: pr.1, pr.2)) := by
  simp [splitFirst, h]

theorem splitFirst_append_not_mem (c : Char) (a b : PyStr) (h : c ∉ a) :
    splitFirst c (a ++ b) = (splitFirst c b).map (fun pr => (a ++ pr.1, pr.2)) := by
  induction a with
  | nil =>
    simp only [List.nil_append]
    cases hb : splitFirst c b with
    | none => simp
    | some pr => simp
  | cons x xs ih =>
    have hx : x ≠ c := fun he => h (he ▸ List.mem_cons_self x xs)
    have hxs : c ∉ xs := fun hm => h (List.mem_cons_of_mem x hm)
    rw [List.cons_append, splitFirst_cons_ne c x (xs ++ b) hx, ih hxs]
    cases hb : splitFirst c b with
    | none => simp
    | some pr => simp

theorem splitFirst_not_mem (c : Char) (a : PyStr) (h : c ∉ a) : splitFirst c a = none := by
  induction a with
  | nil => rfl
  | cons x xs ih =>
    have hx : x ≠ c := fun he => h (he ▸ List.mem_cons_self x xs)
    have hxs : c ∉ xs := fun hm => h (List.mem_cons_of_mem x hm)
    rw [splitFirst_cons_ne c x xs hx, ih hxs]
    rfl

theorem splitAll_not_mem (c : Char) (a : PyStr) (h : c ∉ a) : splitAllChar c a = [a] := by
  induction a with
  | nil => rfl
  | cons x xs ih =>
    have hx : x ≠ c := fun he => h (he ▸ List.mem_cons_self x xs)
    have hxs : c ∉ xs := fun hm => h (List.mem_cons_of_mem x hm)
    simp only [splitAllChar, beq_eq_false_iff_ne, hx, if_neg]
    rw [ih hxs]
    simp [hx]

theorem splitAll_append_cons (c : Char) (a b : PyStr) (h : c ∉ a) :
    splitAllChar c (a ++ c :: b) = a :: splitAllChar c b := by
  induction a with
  | nil => simp [splitAllChar]
  | cons x xs ih =>
    have hx : x ≠ c := fun he => h (he ▸ List.mem_cons_self x xs)
    have hxs : c ∉ xs := fun hm => h (List.mem_cons_of_mem x hm)
    simp only [List.cons_append, splitAllChar, List.append_eq, hx, if_neg]
    rw [ih hxs]
    simp [hx]

theorem rss_cons_cons_ne (x d : Char) (rest : PyStr) (h : ¬(x = '*' ∧ d = '*')) :
    replaceStarStar (x :: d :: rest) = x :: replaceStarStar (d :: rest) := by
  rw [replaceStarStar, if_neg h]

theorem rss_not_mem (a : PyStr) (h : '*' ∉ a) : replaceStarStar a = a := by
  induction a with
  | nil => rfl
  | cons x xs ih =>
    have hx : x ≠ '*' := fun he => h (he ▸ List.mem_cons_self x xs)
    have hxs : '*' ∉ xs := fun hm => h (List.mem_cons_of_mem x hm)
    cases xs with
    | nil => rfl
    | cons d r =>
      rw [rss_cons_cons_ne x d r (fun hc => hx hc.1), ih hxs]

theorem rss_append_not_mem (a b : PyStr) (h : '*' ∉ a) :
    replaceStarStar (a ++ b) = a ++ replaceStarStar b := by
  induction a with
  | nil => rfl
  | cons x xs ih =>
    have hx : x ≠ '*' := fun he => h (he ▸ List.mem_cons_self x xs)
    have hxs : '*' ∉ xs := fun hm => h (List.mem_cons_of_mem x hm)
    cases hxsb : xs ++ b with
    | nil =>
      have hxs0 : xs = [] := (List.append_eq_nil.mp hxsb).1
      have hb0 : b = [] := (List.append_eq_nil.mp hxsb).2
      subst hxs0; subst hb0; rfl
    | cons d r =>
      rw [List.cons_append, hxsb, rss_cons_cons_ne x d r (fun hc => hx hc.1), ← hxsb, ih hxs]
      simp

theorem rss_strip_suffix (k : PyStr) (h : '*' ∉ k) :
    replaceStarStar (k ++ starStarStr) = k := by
  rw [rss_append_not_mem k starStarStr h]
  simp [starStarStr, replaceStarStar]

theorem sw_false_of_head_ne (p c : Char) (ps cs : PyStr) (h : p ≠ c) :
    startsWith (p :: ps) (c :: cs) = false := by
  simp [startsWith, h]

theorem startsWith_self_append (p s : PyStr) : startsWith p (p ++ s) = true := by
  induction p with
  | nil => rfl
  | cons x xs ih => simp [startsWith, ih]

theorem kwTruthy_some (k : PyStr) (h : k ≠ []) : kwTruthy (some k) = true := by
  cases k with
  | nil => exact absurd rfl h
  | cons a r => rfl

theorem updateLast_length (f : PyStr → PyStr) (xs : List PyStr) :
    (updateLast f xs).length = xs.length := by
  induction xs with
  | nil => rfl
  | cons x r ih =>
    cases r with
    | nil => rfl
    | cons y t => simp [updateLast] at ih ⊢; exact ih

theorem updateLast_concat (f : PyStr → PyStr) (xs : List PyStr) (x : PyStr) :
    updateLast f (xs ++ [x]) = xs ++ [f x] := by
  induction xs with
  | nil => rfl
  | cons y t ih =>
    cases ht : t ++ [x] with
    | nil => simp at ht
    | cons z r =>
      simp only [List.cons_append, ht, updateLast]
      rw [← ht, ih]

theorem startsWith_eq_append (p s : PyStr) (h : startsWith p s = true) :
    ∃ t, s = p ++ t := by
  induction p generalizing s with
  | nil => exact ⟨s, rfl⟩
  | cons x xs ih =>
    cases s with
    | nil => simp [startsWith] at h
    | cons c cs =>
      simp only [startsWith, Bool.and_eq_true, beq_iff_eq] at h
      obtain ⟨t, ht⟩ := ih cs h.2
      exact ⟨t, by simp [h.1, ht]⟩

theorem sw_mono (p q s : PyStr) (h : startsWith (p ++ q) s = true) :
    startsWith p s = true := by
  induction p generalizing s with
  | nil => rfl
  | cons x xs ih =>
    cases s with
    | nil => simp [startsWith] at h
    | cons c cs =>
      simp only [List.cons_append, startsWith, Bool.and_eq_true] at h ⊢
      exact ⟨h.1, ih cs h.2⟩

theorem splitFirst_some_elem (c : Char) (l : PyStr) (pr : PyStr × PyStr)
    (h : splitFirst c l = some pr) : l.elem c = true := by
  induction l generalizing pr with
  | nil => simp [splitFirst] at h
  | cons x xs ih =>
    by_cases hx : x = c
    · subst hx; simp [List.elem_cons]
    · rw [splitFirst_cons_ne c x xs hx] at h
      cases hs : splitFirst c xs with
      | none => rw [hs] at h; simp at h
      | some pr' =>
        simp [List.elem_cons, hx, beq_eq_false_iff_ne]
        right
        have := ih pr' hs
        simpa [List.elem_iff] using this

/-! ### Per-line behaviour of the scan step -/

theorem step_blank (st : ScanState) (raw : PyStr) (h : pyStrip raw = []) :
    step st raw = Except.ok st := by
  simp only [step, h]
  rfl

theorem step_marker (st : ScanState) (raw : PyStr) (t : PyStr)
    (hl : pyStrip raw = kwMarkerStr ++ t) :
    step st raw = Except.ok { st with mode := Mode.keywords } := by
  have hne : kwMarkerStr ++ t ≠ [] := by simp [kwMarkerStr]
  have hsw : startsWith kwMarkerStr (kwMarkerStr ++ t) = true := startsWith_self_append _ _
  simp only [step, hl]
  simp [hne, hsw]

theorem step_keyword_list (st : ScanState) (raw : PyStr) (c : Char) (m : PyStr)
    (hm : st.mode = Mode.keywords) (hl : pyStrip raw = c :: m) (hc : c ≠ '*') :
    step st raw =
      Except.ok { st with keywords := parseKeywordList (c :: m), mode := Mode.nothing } := by
  have hnm : startsWith kwMarkerStr (c :: m) = false := by
    show startsWith ('*' :: ("*KEYWORDS IDENTIFIED:**").data) (c :: m) = false
    exact sw_false_of_head_ne _ _ _ _ (fun he => hc he.symm)
  have hss : startsWith starStarStr (c :: m) = false := by
    show startsWith ('*' :: ("*").data) (c :: m) = false
    exact sw_false_of_head_ne _ _ _ _ (fun he => hc he.symm)
  simp only [step, hl]
  simp [hnm, hss, hm]

theorem step_header (st : ScanState) (raw : PyStr) (t pre rest : PyStr)
    (hl : pyStrip raw = kwHeaderStr ++ t)
    (hnm : startsWith kwMarkerStr (kwHeaderStr ++ t) = false)
    (hsp : splitFirst ':' (kwHeaderStr ++ t) = some (pre, rest)) :
    step st raw =
      Except.ok { closeBlock st with
        current_keyword := some (pyStrip (replaceStarStar (pyStrip rest))),
        current_titles := [], current_insights := [] } := by
  have hne : kwHeaderStr ++ t ≠ [] := by simp [kwHeaderStr]
  have hsw : startsWith kwHeaderStr (kwHeaderStr ++ t) = true := startsWith_self_append _ _
  have hss : startsWith starStarStr (kwHeaderStr ++ t) = true := by
    show startsWith starStarStr ((starStarStr ++ ("KEYWORD").data) ++ t) = true
    rw [List.append_assoc]
    exact startsWith_self_append _ _
  have helem : (kwHeaderStr ++ t).elem ':' = true := splitFirst_some_elem ':' _ _ hsp
  have hnm' : ¬(startsWith kwMarkerStr (kwHeaderStr ++ t) = true) := by
    rw [hnm]; simp
  have hkw' : ¬(st.mode = Mode.keywords ∧ startsWith starStarStr (kwHeaderStr ++ t) = false) := by
    intro hcon
    rw [hss] at hcon
    exact absurd hcon.2 (by simp)
  simp only [step, hl]
  rw [if_neg hne, if_neg hnm', if_neg hkw', if_pos ⟨hsw, helem⟩, hsp]

theorem step_titles_marker (st : ScanState) (raw : PyStr) (t : PyStr)
    (hl : pyStrip raw = titlesMarkerStr ++ t) :
    step st raw = Except.ok { st with mode := Mode.titles } := by
  have hne : titlesMarkerStr ++ t ≠ [] := by simp [titlesMarkerStr]
  have hnm : startsWith kwMarkerStr (titlesMarkerStr ++ t) = false := rfl
  have hss : startsWith starStarStr (titlesMarkerStr ++ t) = true := by
    show startsWith starStarStr ((starStarStr ++ ("INSIGHTS:**").data) ++ t) = true
    rw [List.append_assoc]
    exact startsWith_self_append _ _
  have hhd : startsWith kwHeaderStr (titlesMarkerStr ++ t) = false := rfl
  have hsw : startsWith titlesMarkerStr (titlesMarkerStr ++ t) = true :=
    startsWith_self_append _ _
  simp only [step, hl]
  simp [hne, hnm, hss, hhd, hsw]

theorem step_actions_marker (st : ScanState) (raw : PyStr) (t : PyStr)
    (hl : pyStrip raw = actionsMarkerStr ++ t) :
    step st raw = Except.ok { st with mode := Mode.insights } := by
  have hne : actionsMarkerStr ++ t ≠ [] := by simp [actionsMarkerStr]
  have hnm : startsWith kwMarkerStr (actionsMarkerStr ++ t) = false := rfl
  have hss : startsWith starStarStr (actionsMarkerStr ++ t) = true := by
    show startsWith starStarStr ((starStarStr ++ ("ACTIONS:**").data) ++ t) = true
    rw [List.append_assoc]
    exact startsWith_self_append _ _
  have hhd : startsWith kwHeaderStr (actionsMarkerStr ++ t) = false := rfl
  have htm : startsWith titlesMarkerStr (actionsMarkerStr ++ t) = false := rfl
  have hsw : startsWith actionsMarkerStr (actionsMarkerStr ++ t) = true :=
    startsWith_self_append _ _
  simp only [step, hl]
  simp [hne, hnm, hss, hhd, htm, hsw]

theorem pyStrip_space_cons (t : PyStr) (ht : pyStrip t = t) : pyStrip (' ' :: t) = t := by
  have hp := strip_parts t ht
  have hls : lstrip (' ' :: t) = lstrip t := by
    have hsp : isPySpace ' ' = true := by decide
    simp [lstrip, List.dropWhile_cons, hsp]
  rw [pyStrip, hls, hp.1, hp.2]

theorem step_titles_item (st : ScanState) (raw : PyStr) (n : Char) (t : PyStr)
    (hl : pyStrip raw = n :: '.' :: ' ' :: t)
    (hmode : st.mode = Mode.titles) (hkw : kwTruthy st.current_keyword = true)
    (hn : n.isDigit = true) (hstar : n ≠ '*') (hdot : n ≠ '.')
    (ht : pyStrip t = t) (htne : t ≠ []) :
    step st raw = Except.ok { st with current_titles := st.current_titles ++ [t] } := by
  have hne : n :: '.' :: ' ' :: t ≠ [] := by simp
  have hnm : ¬(startsWith kwMarkerStr (n :: '.' :: ' ' :: t) = true) := by
    have : startsWith kwMarkerStr (n :: '.' :: ' ' :: t) = false := by
      show startsWith ('*' :: ("*KEYWORDS IDENTIFIED:**").data) _ = false
      exact sw_false_of_head_ne _ _ _ _ (fun he => hstar he.symm)
    rw [this]; simp
  have hkw' : ¬(st.mode = Mode.keywords ∧
      startsWith starStarStr (n :: '.' :: ' ' :: t) = false) := by
    intro hcon
    rw [hmode] at hcon
    exact absurd hcon.1 (by simp)
  have hhd : ¬(startsWith kwHeaderStr (n :: '.' :: ' ' :: t) = true ∧
      List.elem ':' (n :: '.' :: ' ' :: t) = true) := by
    intro hcon
    have : startsWith kwHeaderStr (n :: '.' :: ' ' :: t) = false := by
      show startsWith ('*' :: ("*KEYWORD").data) _ = false
      exact sw_false_of_head_ne _ _ _ _ (fun he => hstar he.symm)
    rw [this] at hcon
    exact absurd hcon.1 (by simp)
  have htm : ¬(startsWith titlesMarkerStr (n :: '.' :: ' ' :: t) = true) := by
    have : startsWith titlesMarkerStr (n :: '.' :: ' ' :: t) = false := by
      show startsWith ('*' :: ("*INSIGHTS:**").data) _ = false
      exact sw_false_of_head_ne _ _ _ _ (fun he => hstar he.symm)
    rw [this]; simp
  have ham : ¬(startsWith actionsMarkerStr (n :: '.' :: ' ' :: t) = true) := by
    have : startsWith actionsMarkerStr (n :: '.' :: ' ' :: t) = false := by
      show startsWith ('*' :: ("*ACTIONS:**").data) _ = false
      exact sw_false_of_head_ne _ _ _ _ (fun he => hstar he.symm)
    rw [this]; simp
  have hfd : firstIsDigit (n :: '.' :: ' ' :: t) = true := by
    simp [firstIsDigit, hn]
  have hspl : splitFirst '.' (n :: '.' :: ' ' :: t) = some ([n], ' ' :: t) := by
    rw [splitFirst_cons_ne '.' n _ hdot, splitFirst_cons_self]
    rfl
  have hcontent : pyStrip (' ' :: t) = t := pyStrip_space_cons t ht
  simp only [step, hl]
  rw [if_neg hne, if_neg hnm, if_neg hkw', if_neg hhd, if_neg htm, if_neg ham,
    if_pos ⟨hmode, hkw⟩, if_pos hfd, hspl]
  simp only [hcontent]
  rw [if_neg htne]

theorem step_insights_item (st : ScanState) (raw : PyStr) (n : Char) (t : PyStr)
    (hl : pyStrip raw = n :: '.' :: ' ' :: t)
    (hmode : st.mode = Mode.insights) (hkw : kwTruthy st.current_keyword = true)
    (hn : n.isDigit = true) (hstar : n ≠ '*') (hdot : n ≠ '.')
    (ht : pyStrip t = t) (htne : t ≠ []) :
    step st raw = Except.ok { st with current_insights := st.current_insights ++ [t] } := by
  have hne : n :: '.' :: ' ' :: t ≠ [] := by simp
  have hnm : ¬(startsWith kwMarkerStr (n :: '.' :: ' ' :: t) = true) := by
    have : startsWith kwMarkerStr (n :: '.' :: ' ' :: t) = false := by
      show startsWith ('*' :: ("*KEYWORDS IDENTIFIED:**").data) _ = false
      exact sw_false_of_head_ne _ _ _ _ (fun he => hstar he.symm)
    rw [this]; simp
  have hkw' : ¬(st.mode = Mode.keywords ∧
      startsWith starStarStr (n :: '.' :: ' ' :: t) = false) := by
    intro hcon
    rw [hmode] at hcon
    exact absurd hcon.1 (by simp)
  have hhd : ¬(startsWith kwHeaderStr (n :: '.' :: ' ' :: t) = true ∧
      List.elem ':' (n :: '.' :: ' ' :: t) = true) := by
    intro hcon
    have : startsWith kwHeaderStr (n :: '.' :: ' ' :: t) = false := by
      show startsWith ('*' :: ("*KEYWORD").data) _ = false
      exact sw_false_of_head_ne _ _ _ _ (fun he => hstar he.symm)
    rw [this] at hcon
    exact absurd hcon.1 (by simp)
  have htm : ¬(startsWith titlesMarkerStr (n :: '.' :: ' ' :: t) = true) := by
    have : startsWith titlesMarkerStr (n :: '.' :: ' ' :: t) = false := by
      show startsWith ('*' :: ("*INSIGHTS:**").data) _ = false
      exact sw_false_of_head_ne _ _ _ _ (fun he => hstar he.symm)
    rw [this]; simp
  have ham : ¬(startsWith actionsMarkerStr (n :: '.' :: ' ' :: t) = true) := by
    have : startsWith actionsMarkerStr (n :: '.' :: ' ' :: t) = false := by
      show startsWith ('*' :: ("*ACTIONS:**").data) _ = false
      exact sw_false_of_head_ne _ _ _ _ (fun he => hstar he.symm)
    rw [this]; simp
  have hti : ¬(st.mode = Mode.titles ∧ kwTruthy st.current_keyword = true) := by
    intro hcon
    rw [hmode] at hcon
    exact absurd hcon.1 (by simp)
  have hfd : firstIsDigit (n :: '.' :: ' ' :: t) = true := by
    simp [firstIsDigit, hn]
  have hspl : splitFirst '.' (n :: '.' :: ' ' :: t) = some ([n], ' ' :: t) := by
    rw [splitFirst_cons_ne '.' n _ hdot, splitFirst_cons_self]
    rfl
  have hcontent : pyStrip (' ' :: t) = t := pyStrip_space_cons t ht
  simp only [step, hl]
  rw [if_neg hne, if_neg hnm, if_neg hkw', if_neg hhd, if_neg htm, if_neg ham,
    if_neg hti, if_pos ⟨hmode, hkw⟩, if_pos hfd, hspl]
  simp only [hcontent]
  rw [if_neg htne]

/-! ### Composition of the scan -/

theorem scan_cons_ok (st st' : ScanState) (l : PyStr) (ls : List PyStr)
    (h : step st l = Except.ok st') :
    scanLines st (l :: ls) = scanLines st' ls := by
  simp [scanLines, h]

theorem scan_append (st : ScanState) (as bs : List PyStr) :
    scanLines st (as ++ bs) =
      match scanLines st as with
      | Except.ok st' => scanLines st' bs
      | Except.error e => Except.error e := by
  induction as generalizing st with
  | nil => simp [scanLines]
  | cons l ls ih =>
    simp only [List.cons_append, scanLines]
    cases h : step st l with
    | ok st' => exact ih st'
    | error e => rfl

/-! ### Dictionary and block-close lemmas -/

theorem dictSet_not_mem (d : List (PyStr × Insight)) (k : PyStr) (v : Insight)
    (h : ∀ p ∈ d, p.1 ≠ k) : dictSet d k v = d ++ [(k, v)] := by
  have hany : d.any (fun p => p.1 == k) = false := by
    rw [List.any_eq_false]
    intro p hp
    simp [beq_eq_false_iff_ne]
    exact h p hp
  rw [dictSet, hany]
  simp

theorem dictGet_map_set (k : PyStr) (v : Insight) (d : List (PyStr × Insight))
    (h : d.any (fun p => p.1 == k) = true) :
    dictGet k (d.map (fun p => if p.1 == k then (p.1, v) else p)) = some v := by
  induction d with
  | nil => simp at h
  | cons p ps ih =>
    by_cases hp : p.1 = k
    · rw [List.map_cons, if_pos (by simp [hp] : (p.1 == k) = true)]
      simp [dictGet, hp]
    · have hbeq : (p.1 == k) = false := by simp [hp]
      have h' : ps.any (fun p => p.1 == k) = true := by
        rw [List.any_cons, hbeq, Bool.false_or] at h
        exact h
      rw [List.map_cons, if_neg (by simp [hp] : ¬((p.1 == k) = true))]
      simp only [dictGet]
      rw [if_neg (by simp [hp] : ¬((p.1 == k) = true))]
      exact ih h'

theorem dictGet_append_new (k : PyStr) (v : Insight) (d : List (PyStr × Insight))
    (h : d.any (fun p => p.1 == k) = false) :
    dictGet k (d ++ [(k, v)]) = some v := by
  induction d with
  | nil => simp [dictGet]
  | cons p ps ih =>
    simp only [List.any_cons, Bool.or_eq_false_iff] at h
    simp only [List.cons_append, dictGet]
    rw [if_neg (by simp [h.1] : ¬((p.1 == k) = true))]
    exact ih (by simp [h.2])

theorem dictGet_set_self (d : List (PyStr × Insight)) (k : PyStr) (v : Insight) :
    dictGet k (dictSet d k v) = some v := by
  cases hmem : d.any (fun p => p.1 == k) with
  | true =>
    rw [dictSet, if_pos hmem]
    exact dictGet_map_set k v d hmem
  | false =>
    rw [dictSet, hmem]
    simp only [Bool.false_eq_true, if_neg]
    exact dictGet_append_new k v d hmem

theorem closeBlock_write (st : ScanState) (k : PyStr)
    (hk : st.current_keyword = some k) (hkne : k ≠ [])
    (hacc : st.current_titles ≠ [] ∨ st.current_insights ≠ []) :
    closeBlock st = { st with structured_insights := dictSet st.structured_insights k (Insight.mk st.current_titles st.current_insights) } := by
  have hcond : (!k.isEmpty && (!st.current_titles.isEmpty || !st.current_insights.isEmpty)) = true := by
    cases k with
    | nil => exact absurd rfl hkne
    | cons a r =>
      simp only [List.isEmpty_cons, Bool.not_false, Bool.true_and]
      cases hacc with
      | inl h1 =>
        cases ht : st.current_titles with
        | nil => exact absurd rfl (ht ▸ h1)
        | cons x xs => simp
      | inr h2 =>
        cases ht : st.current_insights with
        | nil => exact absurd rfl (ht ▸ h2)
        | cons x xs => simp
  simp only [closeBlock, hk, hcond, if_pos]

theorem closeBlock_skip (st : ScanState)
    (h1 : st.current_titles = []) (h2 : st.current_insights = []) :
    closeBlock st = st := by
  cases hk : st.current_keyword with
  | none => simp [closeBlock, hk]
  | some k => simp [closeBlock, hk, h1, h2]

theorem closeBlock_none (st : ScanState) (h : st.current_keyword = none) :
    closeBlock st = st := by
  simp [closeBlock, h]

/-! ### The canonical well-formed response text -/

/-- Well-formedness of a keyword name for the canonical rendering: non-empty,
strip-invariant, and free of asterisks, commas, brackets and newlines. -/
def wfKeyword (k : PyStr) : Prop :=
  k ≠ [] ∧ pyStrip k = k ∧ '*' ∉ k ∧ ',' ∉ k ∧ '[' ∉ k ∧ ']' ∉ k ∧ '\n' ∉ k

/-- Well-formedness of a title or detail text for the canonical rendering:
non-empty, strip-invariant, newline-free. -/
def wfItem (t : PyStr) : Prop := t ≠ [] ∧ pyStrip t = t ∧ '\n' ∉ t

instance (k : PyStr) : Decidable (wfKeyword k) := by
  unfold wfKeyword
  infer_instance

instance (t : PyStr) : Decidable (wfItem t) := by
  unfold wfItem
  infer_instance

/-- Join lines with a newline, the inverse image of the line splitting. -/
def joinLines : List PyStr → PyStr
  | [] => []
  | [l] => l
  | l :: ls => l ++ '\n' :: joinLines ls

/-- Join keyword names with a comma and a space. -/
def joinComma : List PyStr → PyStr
  | [] => []
  | [k] => k
  | k :: ks => k ++ ',' :: ' ' :: joinComma ks

/-- A numbered item line of the canonical response. -/
def mkItemLine (n : Char) (t : PyStr) : PyStr := n :: '.' :: ' ' :: t

/-- A keyword header line of the canonical response. -/
def mkHeader (c : Char) (k : PyStr) : PyStr :=
  ("**KEYWORD ").data ++ c :: ':' :: ' ' :: (k ++ starStarStr)

/-- The nine lines of one keyword block of the canonical response. -/
def blockLines (c : Char) (k t1 t2 t3 d1 d2 d3 : PyStr) : List PyStr :=
  [mkHeader c k, titlesMarkerStr,
   mkItemLine '1' t1, mkItemLine '2' t2, mkItemLine '3' t3,
   actionsMarkerStr,
   mkItemLine '1' d1, mkItemLine '2' d2, mkItemLine '3' d3]

theorem pyStrip_cons_space (s : PyStr) : pyStrip (' ' :: s) = pyStrip s := by
  have hls : lstrip (' ' :: s) = lstrip s := by
    have hsp : isPySpace ' ' = true := by decide
    simp [lstrip, List.dropWhile_cons, hsp]
  rw [pyStrip, hls, pyStrip]

theorem mem_joinComma (ks : List PyStr) (a : Char) (ha : a ∈ joinComma ks) :
    (∃ k ∈ ks, a ∈ k) ∨ a = ',' ∨ a = ' ' := by
  induction ks with
  | nil => simp [joinComma] at ha
  | cons k rest ih =>
    cases rest with
    | nil =>
      left
      exact ⟨k, List.mem_cons_self _ _, ha⟩
    | cons k2 rest2 =>
      have hj : joinComma (k :: k2 :: rest2) = k ++ ',' :: ' ' :: joinComma (k2 :: rest2) := rfl
      rw [hj] at ha
      rcases List.mem_append.mp ha with hk | hrest
      · exact Or.inl ⟨k, List.mem_cons_self _ _, hk⟩
      · rcases List.mem_cons.mp hrest with hc | hrest2
        · exact Or.inr (Or.inl hc)
        · rcases List.mem_cons.mp hrest2 with hs | hrest3
          · exact Or.inr (Or.inr hs)
          · rcases ih hrest3 with ⟨k', hk', ha'⟩ | hother
            · exact Or.inl ⟨k', List.mem_cons_of_mem _ hk', ha'⟩
            · exact Or.inr hother

theorem splitComma_map_strip (ks : List PyStr) (hne : ks ≠ [])
    (hwf : ∀ k ∈ ks, wfKeyword k) :
    (splitAllChar ',' (joinComma ks)).map pyStrip = ks := by
  induction ks with
  | nil => exact absurd rfl hne
  | cons k rest ih =>
    have hk := hwf k (List.mem_cons_self _ _)
    have hkc : ',' ∉ k := hk.2.2.2.1
    cases rest with
    | nil =>
      have hj : joinComma [k] = k := rfl
      rw [hj, splitAll_not_mem ',' k hkc]
      simp [hk.2.1]
    | cons k2 rest2 =>
      have hj : joinComma (k :: k2 :: rest2) = k ++ ',' :: ' ' :: joinComma (k2 :: rest2) := rfl
      have ihr := ih (by simp) (fun x hx => hwf x (List.mem_cons_of_mem _ hx))
      cases hc : splitAllChar ',' (joinComma (k2 :: rest2)) with
      | nil => rw [hc] at ihr; simp at ihr
      | cons H T =>
        have hsp : splitAllChar ',' (' ' :: joinComma (k2 :: rest2)) = (' ' :: H) :: T := by
          simp only [splitAllChar, hc]
          rw [if_neg (by decide)]
        rw [hj, splitAll_append_cons ',' k _ hkc, hsp]
        rw [hc] at ihr
        simp only [List.map_cons] at ihr ⊢
        rw [pyStrip_cons_space H]
        rw [hk.2.1]
        exact congrArg (k :: ·) ihr

theorem parseKeywordList_join (ks : List PyStr) (hne : ks ≠ [])
    (hwf : ∀ k ∈ ks, wfKeyword k) :
    parseKeywordList (joinComma ks) = ks := by
  have hf1 : (joinComma ks).filter (fun c => c != '[') = joinComma ks := by
    rw [List.filter_eq_self]
    intro a ha
    rcases mem_joinComma ks a ha with ⟨k, hk, hak⟩ | hc | hs
    · have := (hwf k hk).2.2.2.2.1
      simp
      intro he
      exact this (he ▸ hak)
    · simp [hc]
    · simp [hs]
  have hf2 : (joinComma ks).filter (fun c => c != ']') = joinComma ks := by
    rw [List.filter_eq_self]
    intro a ha
    rcases mem_joinComma ks a ha with ⟨k, hk, hak⟩ | hc | hs
    · have := (hwf k hk).2.2.2.2.2.1
      simp
      intro he
      exact this (he ▸ hak)
    · simp [hc]
    · simp [hs]
  have hf3 : ks.filter (fun k => !k.isEmpty) = ks := by
    rw [List.filter_eq_self]
    intro a ha
    have := (hwf a ha).1
    cases a with
    | nil => exact absurd rfl this
    | cons x xs => simp
  simp only [parseKeywordList, hf1, hf2]
  rw [splitComma_map_strip ks hne hwf, hf3]

theorem pyStrip_mkItemLine (n : Char) (t : PyStr) (hn : isPySpace n = false)
    (ht : pyStrip t = t) (hne : t ≠ []) :
    pyStrip (mkItemLine n t) = mkItemLine n t :=
  pyStrip_keep _ n ('.' :: ' ' :: t) [n, '.', ' '] t rfl hn rfl (strip_parts t ht).2 hne

theorem pyStrip_mkHeader (c : Char) (k : PyStr) :
    pyStrip (mkHeader c k) = mkHeader c k := by
  apply pyStrip_keep (mkHeader c k) '*'
    (("*KEYWORD ").data ++ c :: ':' :: ' ' :: (k ++ starStarStr))
    (("**KEYWORD ").data ++ c :: ':' :: ' ' :: k) starStarStr
  · rfl
  · decide
  · simp [mkHeader, List.append_assoc]
  · decide
  · decide

theorem joinLines_cons_cons (l l2 : PyStr) (ls : List PyStr) :
    joinLines (l :: l2 :: ls) = l ++ '\n' :: joinLines (l2 :: ls) := rfl

theorem splitAll_joinLines (ls : List PyStr) (hne : ls ≠ [])
    (h : ∀ l ∈ ls, '\n' ∉ l) :
    splitAllChar '\n' (joinLines ls) = ls := by
  induction ls with
  | nil => exact absurd rfl hne
  | cons l rest ih =>
    cases rest with
    | nil =>
      have hj : joinLines [l] = l := rfl
      rw [hj, splitAll_not_mem '\n' l (h l (List.mem_cons_self _ _))]
    | cons l2 rest2 =>
      rw [joinLines_cons_cons, splitAll_append_cons '\n' l _ (h l (List.mem_cons_self _ _))]
      rw [ih (by simp) (fun x hx => h x (List.mem_cons_of_mem _ hx))]

theorem joinLines_concat_decomp (ls : List PyStr) (l : PyStr) :
    ∃ a, joinLines (ls ++ [l]) = a ++ l := by
  induction ls with
  | nil => exact ⟨[], rfl⟩
  | cons x xs ih =>
    obtain ⟨a, ha⟩ := ih
    cases hxl : xs ++ [l] with
    | nil => simp at hxl
    | cons y r =>
      refine ⟨x ++ '\n' :: a, ?_⟩
      have : joinLines (x :: xs ++ [l]) = x ++ '\n' :: joinLines (xs ++ [l]) := by
        rw [List.cons_append, hxl, joinLines_cons_cons, ← hxl]
      rw [List.cons_append] at this ⊢
      rw [this, ha]
      simp

/-- The loop state reached inside a canonical keyword block. -/
def blockState (st : ScanState) (k : PyStr) (md : Mode) (ts ds : List PyStr) : ScanState :=
  { keywords := (closeBlock st).keywords,
    structured_insights := (closeBlock st).structured_insights,
    current_keyword := some k, mode := md, current_titles := ts, current_insights := ds }

theorem scan_block (st : ScanState) (c : Char) (k t1 t2 t3 d1 d2 d3 : PyStr)
    (rest : List PyStr) (hc : c ≠ ':') (hk : wfKeyword k)
    (ht1 : wfItem t1) (ht2 : wfItem t2) (ht3 : wfItem t3)
    (hd1 : wfItem d1) (hd2 : wfItem d2) (hd3 : wfItem d3) :
    scanLines st (blockLines c k t1 t2 t3 d1 d2 d3 ++ rest) =
      scanLines (blockState st k Mode.insights [t1, t2, t3] [d1, d2, d3]) rest := by
  have hpk : pyStrip (k ++ starStarStr) = k ++ starStarStr := by
    obtain ⟨ck, mk, hkc⟩ := List.exists_cons_of_ne_nil hk.1
    apply pyStrip_keep (k ++ starStarStr) ck (mk ++ starStarStr) k starStarStr
    · rw [hkc]; simp
    · exact strip_head_not_space ck mk (hkc ▸ hk.2.1)
    · rfl
    · decide
    · decide
  have hrk : replaceStarStar (k ++ starStarStr) = k := rss_strip_suffix k hk.2.2.1
  have hlhdr : pyStrip (mkHeader c k) =
      kwHeaderStr ++ (' ' :: c :: ':' :: ' ' :: (k ++ starStarStr)) := by
    rw [pyStrip_mkHeader]; rfl
  have hnm : startsWith kwMarkerStr
      (kwHeaderStr ++ (' ' :: c :: ':' :: ' ' :: (k ++ starStarStr))) = false := rfl
  have hsp : splitFirst ':' (kwHeaderStr ++ (' ' :: c :: ':' :: ' ' :: (k ++ starStarStr))) =
      some (kwHeaderStr ++ [' ', c], ' ' :: (k ++ starStarStr)) := by
    rw [splitFirst_append_not_mem ':' kwHeaderStr _ (by decide)]
    rw [splitFirst_cons_ne ':' ' ' _ (by decide), splitFirst_cons_ne ':' c _ hc,
      splitFirst_cons_self]
    rfl
  have hkey : pyStrip (replaceStarStar (pyStrip (' ' :: (k ++ starStarStr)))) = k := by
    rw [pyStrip_space_cons _ hpk]
    rw [hrk]
    rw [hk.2.1]
  have e1 : step st (mkHeader c k) =
      Except.ok (blockState st k (closeBlock st).mode [] []) := by
    rw [step_header st (mkHeader c k) (' ' :: c :: ':' :: ' ' :: (k ++ starStarStr))
      (kwHeaderStr ++ [' ', c]) (' ' :: (k ++ starStarStr)) hlhdr hnm hsp]
    rw [hkey]
    rfl
  have e2 : step (blockState st k (closeBlock st).mode [] []) titlesMarkerStr =
      Except.ok (blockState st k Mode.titles [] []) :=
    step_titles_marker _ titlesMarkerStr [] (by decide)
  have hkwt : kwTruthy (some k) = true := kwTruthy_some k hk.1
  have e3 : step (blockState st k Mode.titles [] []) (mkItemLine '1' t1) =
      Except.ok (blockState st k Mode.titles [t1] []) :=
    step_titles_item _ _ '1' t1
      (by rw [pyStrip_mkItemLine '1' t1 (by decide) ht1.2.1 ht1.1]; rfl)
      rfl hkwt (by decide) (by decide) (by decide) ht1.2.1 ht1.1
  have e4 : step (blockState st k Mode.titles [t1] []) (mkItemLine '2' t2) =
      Except.ok (blockState st k Mode.titles [t1, t2] []) :=
    step_titles_item _ _ '2' t2
      (by rw [pyStrip_mkItemLine '2' t2 (by decide) ht2.2.1 ht2.1]; rfl)
      rfl hkwt (by decide) (by decide) (by decide) ht2.2.1 ht2.1
  have e5 : step (blockState st k Mode.titles [t1, t2] []) (mkItemLine '3' t3) =
      Except.ok (blockState st k Mode.titles [t1, t2, t3] []) :=
    step_titles_item _ _ '3' t3
      (by rw [pyStrip_mkItemLine '3' t3 (by decide) ht3.2.1 ht3.1]; rfl)
      rfl hkwt (by decide) (by decide) (by decide) ht3.2.1 ht3.1
  have e6 : step (blockState st k Mode.titles [t1, t2, t3] []) actionsMarkerStr =
      Except.ok (blockState st k Mode.insights [t1, t2, t3] []) :=
    step_actions_marker _ actionsMarkerStr [] (by decide)
  have e7 : step (blockState st k Mode.insights [t1, t2, t3] []) (mkItemLine '1' d1) =
      Except.ok (blockState st k Mode.insights [t1, t2, t3] [d1]) :=
    step_insights_item _ _ '1' d1
      (by rw [pyStrip_mkItemLine '1' d1 (by decide) hd1.2.1 hd1.1]; rfl)
      rfl hkwt (by decide) (by decide) (by decide) hd1.2.1 hd1.1
  have e8 : step (blockState st k Mode.insights [t1, t2, t3] [d1]) (mkItemLine '2' d2) =
      Except.ok (blockState st k Mode.insights [t1, t2, t3] [d1, d2]) :=
    step_insights_item _ _ '2' d2
      (by rw [pyStrip_mkItemLine '2' d2 (by decide) hd2.2.1 hd2.1]; rfl)
      rfl hkwt (by decide) (by decide) (by decide) hd2.2.1 hd2.1
  have e9 : step (blockState st k Mode.insights [t1, t2, t3] [d1, d2]) (mkItemLine '3' d3) =
      Except.ok (blockState st k Mode.insights [t1, t2, t3] [d1, d2, d3]) :=
    step_insights_item _ _ '3' d3
      (by rw [pyStrip_mkItemLine '3' d3 (by decide) hd3.2.1 hd3.1]; rfl)
      rfl hkwt (by decide) (by decide) (by decide) hd3.2.1 hd3.1
  calc scanLines st (blockLines c k t1 t2 t3 d1 d2 d3 ++ rest)
      = scanLines (blockState st k (closeBlock st).mode [] [])
          (titlesMarkerStr :: mkItemLine '1' t1 :: mkItemLine '2' t2 :: mkItemLine '3' t3 ::
           actionsMarkerStr :: mkItemLine '1' d1 :: mkItemLine '2' d2 :: mkItemLine '3' d3 ::
           rest) := scan_cons_ok _ _ _ _ e1
    _ = scanLines (blockState st k Mode.titles [] [])
          (mkItemLine '1' t1 :: mkItemLine '2' t2 :: mkItemLine '3' t3 ::
           actionsMarkerStr :: mkItemLine '1' d1 :: mkItemLine '2' d2 :: mkItemLine '3' d3 ::
           rest) := scan_cons_ok _ _ _ _ e2
    _ = scanLines (blockState st k Mode.titles [t1] [])
          (mkItemLine '2' t2 :: mkItemLine '3' t3 :: actionsMarkerStr ::
           mkItemLine '1' d1 :: mkItemLine '2' d2 :: mkItemLine '3' d3 :: rest) :=
        scan_cons_ok _ _ _ _ e3
    _ = scanLines (blockState st k Mode.titles [t1, t2] [])
          (mkItemLine '3' t3 :: actionsMarkerStr ::
           mkItemLine '1' d1 :: mkItemLine '2' d2 :: mkItemLine '3' d3 :: rest) :=
        scan_cons_ok _ _ _ _ e4
    _ = scanLines (blockState st k Mode.titles [t1, t2, t3] [])
          (actionsMarkerStr :: mkItemLine '1' d1 :: mkItemLine '2' d2 ::
           mkItemLine '3' d3 :: rest) := scan_cons_ok _ _ _ _ e5
    _ = scanLines (blockState st k Mode.insights [t1, t2, t3] [])
          (mkItemLine '1' d1 :: mkItemLine '2' d2 :: mkItemLine '3' d3 :: rest) :=
        scan_cons_ok _ _ _ _ e6
    _ = scanLines (blockState st k Mode.insights [t1, t2, t3] [d1])
          (mkItemLine '2' d2 :: mkItemLine '3' d3 :: rest) := scan_cons_ok _ _ _ _ e7
    _ = scanLines (blockState st k Mode.insights [t1, t2, t3] [d1, d2])
          (mkItemLine '3' d3 :: rest) := scan_cons_ok _ _ _ _ e8
    _ = scanLines (blockState st k Mode.insights [t1, t2, t3] [d1, d2, d3]) rest :=
        scan_cons_ok _ _ _ _ e9

theorem nl_not_mem_mkItemLine (n : Char) (t : PyStr) (hn : n ≠ '\n') (ht : '\n' ∉ t) :
    '\n' ∉ mkItemLine n t := by
  intro h
  rcases List.mem_cons.mp h with h1 | h2
  · exact hn h1.symm
  rcases List.mem_cons.mp h2 with h3 | h4
  · exact absurd h3 (by decide)
  rcases List.mem_cons.mp h4 with h5 | h6
  · exact absurd h5 (by decide)
  · exact ht h6

theorem nl_not_mem_mkHeader (c : Char) (k : PyStr) (hc : c ≠ '\n') (hk : '\n' ∉ k) :
    '\n' ∉ mkHeader c k := by
  intro h
  rcases List.mem_append.mp h with h0 | h1
  · exact absurd h0 (by decide)
  rcases List.mem_cons.mp h1 with hc' | h2
  · exact hc hc'.symm
  rcases List.mem_cons.mp h2 with h3 | h4
  · exact absurd h3 (by decide)
  rcases List.mem_cons.mp h4 with h5 | h6
  · exact absurd h5 (by decide)
  rcases List.mem_append.mp h6 with h7 | h8
  · exact hk h7
  · exact absurd h8 (by decide)

theorem nl_not_mem_joinComma (ks : List PyStr) (h : ∀ k ∈ ks, '\n' ∉ k) :
    '\n' ∉ joinComma ks := by
  intro hmem
  rcases mem_joinComma ks '\n' hmem with ⟨k, hk', ha⟩ | hc | hs
  · exact h k hk' ha
  · exact absurd hc (by decide)
  · exact absurd hs (by decide)

theorem nl_not_mem_blockLines (c : Char) (k t1 t2 t3 d1 d2 d3 : PyStr)
    (hcn : c ≠ '\n') (hk : wfKeyword k) (ht1 : wfItem t1) (ht2 : wfItem t2)
    (ht3 : wfItem t3) (hd1 : wfItem d1) (hd2 : wfItem d2) (hd3 : wfItem d3) :
    ∀ l ∈ blockLines c k t1 t2 t3 d1 d2 d3, '\n' ∉ l := by
  intro l hl
  simp only [blockLines, List.mem_cons, List.not_mem_nil, or_false] at hl
  rcases hl with rfl | rfl | rfl | rfl | rfl | rfl | rfl | rfl | rfl
  · exact nl_not_mem_mkHeader c k hcn hk.2.2.2.2.2.2
  · decide
  · exact nl_not_mem_mkItemLine '1' t1 (by decide) ht1.2.2
  · exact nl_not_mem_mkItemLine '2' t2 (by decide) ht2.2.2
  · exact nl_not_mem_mkItemLine '3' t3 (by decide) ht3.2.2
  · decide
  · exact nl_not_mem_mkItemLine '1' d1 (by decide) hd1.2.2
  · exact nl_not_mem_mkItemLine '2' d2 (by decide) hd2.2.2
  · exact nl_not_mem_mkItemLine '3' d3 (by decide) hd3.2.2

theorem joinComma_concat_decomp (ks : List PyStr) (k : PyStr) :
    ∃ a, joinComma (ks ++ [k]) = a ++ k := by
  induction ks with
  | nil => exact ⟨[], rfl⟩
  | cons x xs ih =>
    obtain ⟨a, ha⟩ := ih
    cases hxl : xs ++ [k] with
    | nil => simp at hxl
    | cons y r =>
      refine ⟨x ++ ',' :: ' ' :: a, ?_⟩
      have hstep : joinComma (x :: (xs ++ [k])) = x ++ ',' :: ' ' :: joinComma (xs ++ [k]) := by
        rw [hxl]
        rfl
      rw [List.cons_append, hstep, ha]
      simp

/-- The 47 lines of the canonical well-formed response: the keywords marker,
the keyword list line, and five keyword blocks of three titles and three
details each. -/
def c2Lines (k1 k2 k3 k4 k5
    t11 t12 t13 d11 d12 d13 t21 t22 t23 d21 d22 d23
    t31 t32 t33 d31 d32 d33 t41 t42 t43 d41 d42 d43
    t51 t52 t53 d51 d52 d53 : PyStr) : List PyStr :=
  kwMarkerStr :: joinComma [k1, k2, k3, k4, k5] ::
    (blockLines '1' k1 t11 t12 t13 d11 d12 d13 ++
     (blockLines '2' k2 t21 t22 t23 d21 d22 d23 ++
      (blockLines '3' k3 t31 t32 t33 d31 d32 d33 ++
       (blockLines '4' k4 t41 t42 t43 d41 d42 d43 ++
        (blockLines '5' k5 t51 t52 t53 d51 d52 d53 ++ [])))))

/-- The canonical well-formed response rendered as a single text. -/
def c2Text (k1 k2 k3 k4 k5
    t11 t12 t13 d11 d12 d13 t21 t22 t23 d21 d22 d23
    t31 t32 t33 d31 d32 d33 t41 t42 t43 d41 d42 d43
    t51 t52 t53 d51 d52 d53 : PyStr) : PyStr :=
  joinLines (c2Lines k1 k2 k3 k4 k5
    t11 t12 t13 d11 d12 d13 t21 t22 t23 d21 d22 d23
    t31 t32 t33 d31 d32 d33 t41 t42 t43 d41 d42 d43
    t51 t52 t53 d51 d52 d53)

theorem lstrip_kwMarker_append (X : PyStr) :
    lstrip (kwMarkerStr ++ X) = kwMarkerStr ++ X := by
  have h1 : kwMarkerStr ++ X = '*' :: (("*KEYWORDS IDENTIFIED:**").data ++ X) := rfl
  rw [h1, lstrip_cons_not_space _ _ (by decide)]

/-- C2: for every well-formed canonical input consisting of the keywords
marker, a keyword-list line declaring five distinct well-formed keywords, and
five keyword-header blocks each holding an insights section with three
numbered title lines and an actions section with three numbered detail lines,
the decoder returns exactly the five keywords in declared order and a mapping
with exactly those five keys, each holding the three titles and the three
details of its block. -/
theorem C2_wellformed_sample (k1 k2 k3 k4 k5
    t11 t12 t13 d11 d12 d13 t21 t22 t23 d21 d22 d23
    t31 t32 t33 d31 d32 d33 t41 t42 t43 d41 d42 d43
    t51 t52 t53 d51 d52 d53 : PyStr)
    (hk1 : wfKeyword k1) (hk2 : wfKeyword k2) (hk3 : wfKeyword k3)
    (hk4 : wfKeyword k4) (hk5 : wfKeyword k5)
    (hnd : [k1, k2, k3, k4, k5].Nodup)
    (ht11 : wfItem t11) (ht12 : wfItem t12) (ht13 : wfItem t13)
    (hd11 : wfItem d11) (hd12 : wfItem d12) (hd13 : wfItem d13)
    (ht21 : wfItem t21) (ht22 : wfItem t22) (ht23 : wfItem t23)
    (hd21 : wfItem d21) (hd22 : wfItem d22) (hd23 : wfItem d23)
    (ht31 : wfItem t31) (ht32 : wfItem t32) (ht33 : wfItem t33)
    (hd31 : wfItem d31) (hd32 : wfItem d32) (hd33 : wfItem d33)
    (ht41 : wfItem t41) (ht42 : wfItem t42) (ht43 : wfItem t43)
    (hd41 : wfItem d41) (hd42 : wfItem d42) (hd43 : wfItem d43)
    (ht51 : wfItem t51) (ht52 : wfItem t52) (ht53 : wfItem t53)
    (hd51 : wfItem d51) (hd52 : wfItem d52) (hd53 : wfItem d53) :
    parse_response (c2Text k1 k2 k3 k4 k5 t11 t12 t13 d11 d12 d13 t21 t22 t23 d21 d22 d23 t31 t32 t33 d31 d32 d33 t41 t42 t43 d41 d42 d43 t51 t52 t53 d51 d52 d53) =
      ParseResult.mk [k1, k2, k3, k4, k5] [(k1, Insight.mk [t11, t12, t13] [d11, d12, d13]), (k2, Insight.mk [t21, t22, t23] [d21, d22, d23]), (k3, Insight.mk [t31, t32, t33] [d31, d32, d33]), (k4, Insight.mk [t41, t42, t43] [d41, d42, d43]), (k5, Insight.mk [t51, t52, t53] [d51, d52, d53])] none := by
  have hnlAll : ∀ l ∈ c2Lines k1 k2 k3 k4 k5 t11 t12 t13 d11 d12 d13 t21 t22 t23 d21 d22 d23 t31 t32 t33 d31 d32 d33 t41 t42 t43 d41 d42 d43 t51 t52 t53 d51 d52 d53, '\n' ∉ l := by
    intro l hl
    simp only [c2Lines, List.mem_cons] at hl
    rcases hl with rfl | rfl | hl'
    · decide
    · refine nl_not_mem_joinComma _ ?_
      intro x hx
      simp only [List.mem_cons, List.not_mem_nil, or_false] at hx
      rcases hx with rfl | rfl | rfl | rfl | rfl
      · exact hk1.2.2.2.2.2.2
      · exact hk2.2.2.2.2.2.2
      · exact hk3.2.2.2.2.2.2
      · exact hk4.2.2.2.2.2.2
      · exact hk5.2.2.2.2.2.2
    · rcases List.mem_append.mp hl' with h1 | h2
      · exact nl_not_mem_blockLines '1' k1 t11 t12 t13 d11 d12 d13 (by decide) hk1 ht11 ht12 ht13 hd11 hd12 hd13 l h1
      rcases List.mem_append.mp h2 with h3 | h4
      · exact nl_not_mem_blockLines '2' k2 t21 t22 t23 d21 d22 d23 (by decide) hk2 ht21 ht22 ht23 hd21 hd22 hd23 l h3
      rcases List.mem_append.mp h4 with h5 | h6
      · exact nl_not_mem_blockLines '3' k3 t31 t32 t33 d31 d32 d33 (by decide) hk3 ht31 ht32 ht33 hd31 hd32 hd33 l h5
      rcases List.mem_append.mp h6 with h7 | h8
      · exact nl_not_mem_blockLines '4' k4 t41 t42 t43 d41 d42 d43 (by decide) hk4 ht41 ht42 ht43 hd41 hd42 hd43 l h7
      rcases List.mem_append.mp h8 with h9 | h10
      · exact nl_not_mem_blockLines '5' k5 t51 t52 t53 d51 d52 d53 (by decide) hk5 ht51 ht52 ht53 hd51 hd52 hd53 l h9
      · simp at h10
  have hcons : joinLines (c2Lines k1 k2 k3 k4 k5 t11 t12 t13 d11 d12 d13 t21 t22 t23 d21 d22 d23 t31 t32 t33 d31 d32 d33 t41 t42 t43 d41 d42 d43 t51 t52 t53 d51 d52 d53) =
      kwMarkerStr ++ '\n' :: joinLines (joinComma [k1, k2, k3, k4, k5] ::
        (blockLines '1' k1 t11 t12 t13 d11 d12 d13 ++ (blockLines '2' k2 t21 t22 t23 d21 d22 d23 ++ (blockLines '3' k3 t31 t32 t33 d31 d32 d33 ++ (blockLines '4' k4 t41 t42 t43 d41 d42 d43 ++ (blockLines '5' k5 t51 t52 t53 d51 d52 d53 ++ [])))))) :=
    joinLines_cons_cons _ _ _
  have hlst : lstrip (joinLines (c2Lines k1 k2 k3 k4 k5 t11 t12 t13 d11 d12 d13 t21 t22 t23 d21 d22 d23 t31 t32 t33 d31 d32 d33 t41 t42 t43 d41 d42 d43 t51 t52 t53 d51 d52 d53)) = joinLines (c2Lines k1 k2 k3 k4 k5 t11 t12 t13 d11 d12 d13 t21 t22 t23 d21 d22 d23 t31 t32 t33 d31 d32 d33 t41 t42 t43 d41 d42 d43 t51 t52 t53 d51 d52 d53) := by
    rw [hcons, lstrip_kwMarker_append]
  have hfe : c2Lines k1 k2 k3 k4 k5 t11 t12 t13 d11 d12 d13 t21 t22 t23 d21 d22 d23 t31 t32 t33 d31 d32 d33 t41 t42 t43 d41 d42 d43 t51 t52 t53 d51 d52 d53 =
      (kwMarkerStr :: joinComma [k1, k2, k3, k4, k5] ::
        (blockLines '1' k1 t11 t12 t13 d11 d12 d13 ++ (blockLines '2' k2 t21 t22 t23 d21 d22 d23 ++ (blockLines '3' k3 t31 t32 t33 d31 d32 d33 ++ (blockLines '4' k4 t41 t42 t43 d41 d42 d43 ++
         [mkHeader '5' k5, titlesMarkerStr, mkItemLine '1' t51, mkItemLine '2' t52,
          mkItemLine '3' t53, actionsMarkerStr, mkItemLine '1' d51, mkItemLine '2' d52]))))) ++
        [mkItemLine '3' d53] := by
    simp [c2Lines, blockLines]
  have hrst : rstrip (joinLines (c2Lines k1 k2 k3 k4 k5 t11 t12 t13 d11 d12 d13 t21 t22 t23 d21 d22 d23 t31 t32 t33 d31 d32 d33 t41 t42 t43 d41 d42 d43 t51 t52 t53 d51 d52 d53)) = joinLines (c2Lines k1 k2 k3 k4 k5 t11 t12 t13 d11 d12 d13 t21 t22 t23 d21 d22 d23 t31 t32 t33 d31 d32 d33 t41 t42 t43 d41 d42 d43 t51 t52 t53 d51 d52 d53) := by
    obtain ⟨a, ha⟩ := joinLines_concat_decomp
      (kwMarkerStr :: joinComma [k1, k2, k3, k4, k5] ::
        (blockLines '1' k1 t11 t12 t13 d11 d12 d13 ++ (blockLines '2' k2 t21 t22 t23 d21 d22 d23 ++ (blockLines '3' k3 t31 t32 t33 d31 d32 d33 ++ (blockLines '4' k4 t41 t42 t43 d41 d42 d43 ++
         [mkHeader '5' k5, titlesMarkerStr, mkItemLine '1' t51, mkItemLine '2' t52,
          mkItemLine '3' t53, actionsMarkerStr, mkItemLine '1' d51, mkItemLine '2' d52])))))
      (mkItemLine '3' d53)
    have ha' : joinLines (c2Lines k1 k2 k3 k4 k5 t11 t12 t13 d11 d12 d13 t21 t22 t23 d21 d22 d23 t31 t32 t33 d31 d32 d33 t41 t42 t43 d41 d42 d43 t51 t52 t53 d51 d52 d53) = a ++ mkItemLine '3' d53 := by
      rw [hfe]; exact ha
    rw [ha']
    have hsh : a ++ mkItemLine '3' d53 = (a ++ ['3', '.', ' ']) ++ d53 := by
      simp [mkItemLine]
    rw [hsh, rstrip_append_keep _ _ (strip_parts d53 hd53.2.1).2 hd53.1]
  have hstrip : pyStrip (joinLines (c2Lines k1 k2 k3 k4 k5 t11 t12 t13 d11 d12 d13 t21 t22 t23 d21 d22 d23 t31 t32 t33 d31 d32 d33 t41 t42 t43 d41 d42 d43 t51 t52 t53 d51 d52 d53)) = joinLines (c2Lines k1 k2 k3 k4 k5 t11 t12 t13 d11 d12 d13 t21 t22 t23 d21 d22 d23 t31 t32 t33 d31 d32 d33 t41 t42 t43 d41 d42 d43 t51 t52 t53 d51 d52 d53) := by
    rw [pyStrip, hlst, hrst]
  have hlines : pyLines (c2Text k1 k2 k3 k4 k5 t11 t12 t13 d11 d12 d13 t21 t22 t23 d21 d22 d23 t31 t32 t33 d31 d32 d33 t41 t42 t43 d41 d42 d43 t51 t52 t53 d51 d52 d53) = c2Lines k1 k2 k3 k4 k5 t11 t12 t13 d11 d12 d13 t21 t22 t23 d21 d22 d23 t31 t32 t33 d31 d32 d33 t41 t42 t43 d41 d42 d43 t51 t52 t53 d51 d52 d53 := by
    rw [pyLines, c2Text, hstrip]
    exact splitAll_joinLines _ (by simp [c2Lines]) hnlAll
  -- pairwise distinctness
  simp only [List.nodup_cons, List.mem_cons, List.not_mem_nil, or_false, not_or,
    List.nodup_nil, and_true] at hnd
  obtain ⟨⟨h12, h13, h14, h15⟩, ⟨h23, h24, h25⟩, ⟨h34, h35⟩, h45, -⟩ := hnd
  -- line 1: the keywords marker
  have e1 : step initState kwMarkerStr = Except.ok ({ keywords := [], structured_insights := [], current_keyword := none, mode := Mode.keywords, current_titles := [], current_insights := [] } : ScanState) :=
    step_marker initState kwMarkerStr [] (by decide)
  -- line 2: the keyword list
  obtain ⟨c0, m0, hk1c⟩ := List.exists_cons_of_ne_nil hk1.1
  have hjc : joinComma [k1, k2, k3, k4, k5] = c0 :: (m0 ++ ',' :: ' ' :: joinComma [k2, k3, k4, k5]) := by
    rw [show joinComma [k1, k2, k3, k4, k5] = k1 ++ ',' :: ' ' :: joinComma [k2, k3, k4, k5] from rfl, hk1c]
    rfl
  have hstar0 : c0 ≠ '*' := by
    intro he
    apply hk1.2.2.1
    rw [hk1c, he]
    exact List.mem_cons_self _ _
  have hjs : pyStrip (joinComma [k1, k2, k3, k4, k5]) = joinComma [k1, k2, k3, k4, k5] := by
    obtain ⟨a, ha⟩ := joinComma_concat_decomp [k1, k2, k3, k4] k5
    apply pyStrip_keep _ c0 (m0 ++ ',' :: ' ' :: joinComma [k2, k3, k4, k5]) a k5 hjc
    · exact strip_head_not_space c0 m0 (hk1c ▸ hk1.2.1)
    · exact ha
    · exact (strip_parts k5 hk5.2.1).2
    · exact hk5.1
  have hl2 : pyStrip (joinComma [k1, k2, k3, k4, k5]) = c0 :: (m0 ++ ',' :: ' ' :: joinComma [k2, k3, k4, k5]) := by
    rw [hjs, hjc]
  have hpkl : parseKeywordList (joinComma [k1, k2, k3, k4, k5]) = [k1, k2, k3, k4, k5] :=
    parseKeywordList_join [k1, k2, k3, k4, k5] (by simp) (by
      intro x hx
      simp only [List.mem_cons, List.not_mem_nil, or_false] at hx
      rcases hx with rfl | rfl | rfl | rfl | rfl
      exacts [hk1, hk2, hk3, hk4, hk5])
  have e2 : step ({ keywords := [], structured_insights := [], current_keyword := none, mode := Mode.keywords, current_titles := [], current_insights := [] } : ScanState) (joinComma [k1, k2, k3, k4, k5]) = Except.ok ({ keywords := [k1, k2, k3, k4, k5], structured_insights := [], current_keyword := none, mode := Mode.nothing, current_titles := [], current_insights := [] } : ScanState) := by
    rw [step_keyword_list { keywords := [], structured_insights := [], current_keyword := none, mode := Mode.keywords, current_titles := [], current_insights := [] } (joinComma [k1, k2, k3, k4, k5]) c0
      (m0 ++ ',' :: ' ' :: joinComma [k2, k3, k4, k5]) rfl hl2 hstar0]
    rw [← hjc, hpkl]
  -- block-state conversions
  have hb1 : blockState ({ keywords := [k1, k2, k3, k4, k5], structured_insights := [], current_keyword := none, mode := Mode.nothing, current_titles := [], current_insights := [] } : ScanState) k1 Mode.insights [t11, t12, t13] [d11, d12, d13] = ({ keywords := [k1, k2, k3, k4, k5], structured_insights := [], current_keyword := some k1, mode := Mode.insights, current_titles := [t11, t12, t13], current_insights := [d11, d12, d13] } : ScanState) := by
    simp only [blockState]
    rw [closeBlock_none { keywords := [k1, k2, k3, k4, k5], structured_insights := [], current_keyword := none, mode := Mode.nothing, current_titles := [], current_insights := [] } rfl]
  have hd1 : dictSet [] k1 (Insight.mk [t11, t12, t13] [d11, d12, d13]) = [(k1, Insight.mk [t11, t12, t13] [d11, d12, d13])] := by
    rw [dictSet_not_mem [] k1 (Insight.mk [t11, t12, t13] [d11, d12, d13]) (by simp)]
    rfl
  have hcb1 : closeBlock ({ keywords := [k1, k2, k3, k4, k5], structured_insights := [], current_keyword := some k1, mode := Mode.insights, current_titles := [t11, t12, t13], current_insights := [d11, d12, d13] } : ScanState) = ({ keywords := [k1, k2, k3, k4, k5], structured_insights := [(k1, Insight.mk [t11, t12, t13] [d11, d12, d13])], current_keyword := some k1, mode := Mode.insights, current_titles := [t11, t12, t13], current_insights := [d11, d12, d13] } : ScanState) := by
    rw [closeBlock_write { keywords := [k1, k2, k3, k4, k5], structured_insights := [], current_keyword := some k1, mode := Mode.insights, current_titles := [t11, t12, t13], current_insights := [d11, d12, d13] } k1 rfl hk1.1 (Or.inl (by simp))]
    rw [show dictSet (ScanState.structured_insights { keywords := [k1, k2, k3, k4, k5], structured_insights := [], current_keyword := some k1, mode := Mode.insights, current_titles := [t11, t12, t13], current_insights := [d11, d12, d13] }) k1 (Insight.mk (ScanState.current_titles { keywords := [k1, k2, k3, k4, k5], structured_insights := [], current_keyword := some k1, mode := Mode.insights, current_titles := [t11, t12, t13], current_insights := [d11, d12, d13] }) (ScanState.current_insights { keywords := [k1, k2, k3, k4, k5], structured_insights := [], current_keyword := some k1, mode := Mode.insights, current_titles := [t11, t12, t13], current_insights := [d11, d12, d13] })) = [(k1, Insight.mk [t11, t12, t13] [d11, d12, d13])] from hd1]
  have hb2 : blockState ({ keywords := [k1, k2, k3, k4, k5], structured_insights := [], current_keyword := some k1, mode := Mode.insights, current_titles := [t11, t12, t13], current_insights := [d11, d12, d13] } : ScanState) k2 Mode.insights [t21, t22, t23] [d21, d22, d23] = ({ keywords := [k1, k2, k3, k4, k5], structured_insights := [(k1, Insight.mk [t11, t12, t13] [d11, d12, d13])], current_keyword := some k2, mode := Mode.insights, current_titles := [t21, t22, t23], current_insights := [d21, d22, d23] } : ScanState) := by
    simp only [blockState]
    rw [hcb1]
  have hd2 : dictSet [(k1, Insight.mk [t11, t12, t13] [d11, d12, d13])] k2 (Insight.mk [t21, t22, t23] [d21, d22, d23]) = [(k1, Insight.mk [t11, t12, t13] [d11, d12, d13]), (k2, Insight.mk [t21, t22, t23] [d21, d22, d23])] := by
    rw [dictSet_not_mem [(k1, Insight.mk [t11, t12, t13] [d11, d12, d13])] k2 (Insight.mk [t21, t22, t23] [d21, d22, d23]) (by
      intro p hp
      simp only [List.mem_cons, List.not_mem_nil, or_false] at hp
      rcases hp with rfl
      exact h12)]
    rfl
  have hcb2 : closeBlock ({ keywords := [k1, k2, k3, k4, k5], structured_insights := [(k1, Insight.mk [t11, t12, t13] [d11, d12, d13])], current_keyword := some k2, mode := Mode.insights, current_titles := [t21, t22, t23], current_insights := [d21, d22, d23] } : ScanState) = ({ keywords := [k1, k2, k3, k4, k5], structured_insights := [(k1, Insight.mk [t11, t12, t13] [d11, d12, d13]), (k2, Insight.mk [t21, t22, t23] [d21, d22, d23])], current_keyword := some k2, mode := Mode.insights, current_titles := [t21, t22, t23], current_insights := [d21, d22, d23] } : ScanState) := by
    rw [closeBlock_write { keywords := [k1, k2, k3, k4, k5], structured_insights := [(k1, Insight.mk [t11, t12, t13] [d11, d12, d13])], current_keyword := some k2, mode := Mode.insights, current_titles := [t21, t22, t23], current_insights := [d21, d22, d23] } k2 rfl hk2.1 (Or.inl (by simp))]
    rw [show dictSet (ScanState.structured_insights { keywords := [k1, k2, k3, k4, k5], structured_insights := [(k1, Insight.mk [t11, t12, t13] [d11, d12, d13])], current_keyword := some k2, mode := Mode.insights, current_titles := [t21, t22, t23], current_insights := [d21, d22, d23] }) k2 (Insight.mk (ScanState.current_titles { keywords := [k1, k2, k3, k4, k5], structured_insights := [(k1, Insight.mk [t11, t12, t13] [d11, d12, d13])], current_keyword := some k2, mode := Mode.insights, current_titles := [t21, t22, t23], current_insights := [d21, d22, d23] }) (ScanState.current_insights { keywords := [k1, k2, k3, k4, k5], structured_insights := [(k1, Insight.mk [t11, t12, t13] [d11, d12, d13])], current_keyword := some k2, mode := Mode.insights, current_titles := [t21, t22, t23], current_insights := [d21, d22, d23] })) = [(k1, Insight.mk [t11, t12, t13] [d11, d12, d13]), (k2, Insight.mk [t21, t22, t23] [d21, d22, d23])] from hd2]
  have hb3 : blockState ({ keywords := [k1, k2, k3, k4, k5], structured_insights := [(k1, Insight.mk [t11, t12, t13] [d11, d12, d13])], current_keyword := some k2, mode := Mode.insights, current_titles := [t21, t22, t23], current_insights := [d21, d22, d23] } : ScanState) k3 Mode.insights [t31, t32, t33] [d31, d32, d33] = ({ keywords := [k1, k2, k3, k4, k5], structured_insights := [(k1, Insight.mk [t11, t12, t13] [d11, d12, d13]), (k2, Insight.mk [t21, t22, t23] [d21, d22, d23])], current_keyword := some k3, mode := Mode.insights, current_titles := [t31, t32, t33], current_insights := [d31, d32, d33] } : ScanState) := by
    simp only [blockState]
    rw [hcb2]
  have hd3 : dictSet [(k1, Insight.mk [t11, t12, t13] [d11, d12, d13]), (k2, Insight.mk [t21, t22, t23] [d21, d22, d23])] k3 (Insight.mk [t31, t32, t33] [d31, d32, d33]) = [(k1, Insight.mk [t11, t12, t13] [d11, d12, d13]), (k2, Insight.mk [t21, t22, t23] [d21, d22, d23]), (k3, Insight.mk [t31, t32, t33] [d31, d32, d33])] := by
    rw [dictSet_not_mem [(k1, Insight.mk [t11, t12, t13] [d11, d12, d13]), (k2, Insight.mk [t21, t22, t23] [d21, d22, d23])] k3 (Insight.mk [t31, t32, t33] [d31, d32, d33]) (by
      intro p hp
      simp only [List.mem_cons, List.not_mem_nil, or_false] at hp
      rcases hp with rfl | rfl
      · exact h13
      · exact h23)]
    rfl
  have hcb3 : closeBlock ({ keywords := [k1, k2, k3, k4, k5], structured_insights := [(k1, Insight.mk [t11, t12, t13] [d11, d12, d13]), (k2, Insight.mk [t21, t22, t23] [d21, d22, d23])], current_keyword := some k3, mode := Mode.insights, current_titles := [t31, t32, t33], current_insights := [d31, d32, d33] } : ScanState) = ({ keywords := [k1, k2, k3, k4, k5], structured_insights := [(k1, Insight.mk [t11, t12, t13] [d11, d12, d13]), (k2, Insight.mk [t21, t22, t23] [d21, d22, d23]), (k3, Insight.mk [t31, t32, t33] [d31, d32, d33])], current_keyword := some k3, mode := Mode.insights, current_titles := [t31, t32, t33], current_insights := [d31, d32, d33] } : ScanState) := by
    rw [closeBlock_write { keywords := [k1, k2, k3, k4, k5], structured_insights := [(k1, Insight.mk [t11, t12, t13] [d11, d12, d13]), (k2, Insight.mk [t21, t22, t23] [d21, d22, d23])], current_keyword := some k3, mode := Mode.insights, current_titles := [t31, t32, t33], current_insights := [d31, d32, d33] } k3 rfl hk3.1 (Or.inl (by simp))]
    rw [show dictSet (ScanState.structured_insights { keywords := [k1, k2, k3, k4, k5], structured_insights := [(k1, Insight.mk [t11, t12, t13] [d11, d12, d13]), (k2, Insight.mk [t21, t22, t23] [d21, d22, d23])], current_keyword := some k3, mode := Mode.insights, current_titles := [t31, t32, t33], current_insights := [d31, d32, d33] }) k3 (Insight.mk (ScanState.current_titles { keywords := [k1, k2, k3, k4, k5], structured_insights := [(k1, Insight.mk [t11, t12, t13] [d11, d12, d13]), (k2, Insight.mk [t21, t22, t23] [d21, d22, d23])], current_keyword := some k3, mode := Mode.insights, current_titles := [t31, t32, t33], current_insights := [d31, d32, d33] }) (ScanState.current_insights { keywords := [k1, k2, k3, k4, k5], structured_insights := [(k1, Insight.mk [t11, t12, t13] [d11, d12, d13]), (k2, Insight.mk [t21, t22, t23] [d21, d22, d23])], current_keyword := some k3, mode := Mode.insights, current_titles := [t31, t32, t33], current_insights := [d31, d32, d33] })) = [(k1, Insight.mk [t11, t12, t13] [d11, d12, d13]), (k2, Insight.mk [t21, t22, t23] [d21, d22, d23]), (k3, Insight.mk [t31, t32, t33] [d31, d32, d33])] from hd3]
  have hb4 : blockState ({ keywords := [k1, k2, k3, k4, k5], structured_insights := [(k1, Insight.mk [t11, t12, t13] [d11, d12, d13]), (k2, Insight.mk [t21, t22, t23] [d21, d22, d23])], current_keyword := some k3, mode := Mode.insights, current_titles := [t31, t32, t33], current_insights := [d31, d32, d33] } : ScanState) k4 Mode.insights [t41, t42, t43] [d41, d42, d43] = ({ keywords := [k1, k2, k3, k4, k5], structured_insights := [(k1, Insight.mk [t11, t12, t13] [d11, d12, d13]), (k2, Insight.mk [t21, t22, t23] [d21, d22, d23]), (k3, Insight.mk [t31, t32, t33] [d31, d32, d33])], current_keyword := some k4, mode := Mode.insights, current_titles := [t41, t42, t43], current_insights := [d41, d42, d43] } : ScanState) := by
    simp only [blockState]
    rw [hcb3]
  have hd4 : dictSet [(k1, Insight.mk [t11, t12, t13] [d11, d12, d13]), (k2, Insight.mk [t21, t22, t23] [d21, d22, d23]), (k3, Insight.mk [t31, t32, t33] [d31, d32, d33])] k4 (Insight.mk [t41, t42, t43] [d41, d42, d43]) = [(k1, Insight.mk [t11, t12, t13] [d11, d12, d13]), (k2, Insight.mk [t21, t22, t23] [d21, d22, d23]), (k3, Insight.mk [t31, t32, t33] [d31, d32, d33]), (k4, Insight.mk [t41, t42, t43] [d41, d42, d43])] := by
    rw [dictSet_not_mem [(k1, Insight.mk [t11, t12, t13] [d11, d12, d13]), (k2, Insight.mk [t21, t22, t23] [d21, d22, d23]), (k3, Insight.mk [t31, t32, t33] [d31, d32, d33])] k4 (Insight.mk [t41, t42, t43] [d41, d42, d43]) (by
      intro p hp
      simp only [List.mem_cons, List.not_mem_nil, or_false] at hp
      rcases hp with rfl | rfl | rfl
      · exact h14
      · exact h24
      · exact h34)]
    rfl
  have hcb4 : closeBlock ({ keywords := [k1, k2, k3, k4, k5], structured_insights := [(k1, Insight.mk [t11, t12, t13] [d11, d12, d13]), (k2, Insight.mk [t21, t22, t23] [d21, d22, d23]), (k3, Insight.mk [t31, t32, t33] [d31, d32, d33])], current_keyword := some k4, mode := Mode.insights, current_titles := [t41, t42, t43], current_insights := [d41, d42, d43] } : ScanState) = ({ keywords := [k1, k2, k3, k4, k5], structured_insights := [(k1, Insight.mk [t11, t12, t13] [d11, d12, d13]), (k2, Insight.mk [t21, t22, t23] [d21, d22, d23]), (k3, Insight.mk [t31, t32, t33] [d31, d32, d33]), (k4, Insight.mk [t41, t42, t43] [d41, d42, d43])], current_keyword := some k4, mode := Mode.insights, current_titles := [t41, t42, t43], current_insights := [d41, d42, d43] } : ScanState) := by
    rw [closeBlock_write { keywords := [k1, k2, k3, k4, k5], structured_insights := [(k1, Insight.mk [t11, t12, t13] [d11, d12, d13]), (k2, Insight.mk [t21, t22, t23] [d21, d22, d23]), (k3, Insight.mk [t31, t32, t33] [d31, d32, d33])], current_keyword := some k4, mode := Mode.insights, current_titles := [t41, t42, t43], current_insights := [d41, d42, d43] } k4 rfl hk4.1 (Or.inl (by simp))]
    rw [show dictSet (ScanState.structured_insights { keywords := [k1, k2, k3, k4, k5], structured_insights := [(k1, Insight.mk [t11, t12, t13] [d11, d12, d13]), (k2, Insight.mk [t21, t22, t23] [d21, d22, d23]), (k3, Insight.mk [t31, t32, t33] [d31, d32, d33])], current_keyword := some k4, mode := Mode.insights, current_titles := [t41, t42, t43], current_insights := [d41, d42, d43] }) k4 (Insight.mk (ScanState.current_titles { keywords := [k1, k2, k3, k4, k5], structured_insights := [(k1, Insight.mk [t11, t12, t13] [d11, d12, d13]), (k2, Insight.mk [t21, t22, t23] [d21, d22, d23]), (k3, Insight.mk [t31, t32, t33] [d31, d32, d33])], current_keyword := some k4, mode := Mode.insights, current_titles := [t41, t42, t43], current_insights := [d41, d42, d43] }) (ScanState.current_insights { keywords := [k1, k2, k3, k4, k5], structured_insights := [(k1, Insight.mk [t11, t12, t13] [d11, d12, d13]), (k2, Insight.mk [t21, t22, t23] [d21, d22, d23]), (k3, Insight.mk [t31, t32, t33] [d31, d32, d33])], current_keyword := some k4, mode := Mode.insights, current_titles := [t41, t42, t43], current_insights := [d41, d42, d43] })) = [(k1, Insight.mk [t11, t12, t13] [d11, d12, d13]), (k2, Insight.mk [t21, t22, t23] [d21, d22, d23]), (k3, Insight.mk [t31, t32, t33] [d31, d32, d33]), (k4, Insight.mk [t41, t42, t43] [d41, d42, d43])] from hd4]
  have hb5 : blockState ({ keywords := [k1, k2, k3, k4, k5], structured_insights := [(k1, Insight.mk [t11, t12, t13] [d11, d12, d13]), (k2, Insight.mk [t21, t22, t23] [d21, d22, d23]), (k3, Insight.mk [t31, t32, t33] [d31, d32, d33])], current_keyword := some k4, mode := Mode.insights, current_titles := [t41, t42, t43], current_insights := [d41, d42, d43] } : ScanState) k5 Mode.insights [t51, t52, t53] [d51, d52, d53] = ({ keywords := [k1, k2, k3, k4, k5], structured_insights := [(k1, Insight.mk [t11, t12, t13] [d11, d12, d13]), (k2, Insight.mk [t21, t22, t23] [d21, d22, d23]), (k3, Insight.mk [t31, t32, t33] [d31, d32, d33]), (k4, Insight.mk [t41, t42, t43] [d41, d42, d43])], current_keyword := some k5, mode := Mode.insights, current_titles := [t51, t52, t53], current_insights := [d51, d52, d53] } : ScanState) := by
    simp only [blockState]
    rw [hcb4]
  have hd5 : dictSet [(k1, Insight.mk [t11, t12, t13] [d11, d12, d13]), (k2, Insight.mk [t21, t22, t23] [d21, d22, d23]), (k3, Insight.mk [t31, t32, t33] [d31, d32, d33]), (k4, Insight.mk [t41, t42, t43] [d41, d42, d43])] k5 (Insight.mk [t51, t52, t53] [d51, d52, d53]) = [(k1, Insight.mk [t11, t12, t13] [d11, d12, d13]), (k2, Insight.mk [t21, t22, t23] [d21, d22, d23]), (k3, Insight.mk [t31, t32, t33] [d31, d32, d33]), (k4, Insight.mk [t41, t42, t43] [d41, d42, d43]), (k5, Insight.mk [t51, t52, t53] [d51, d52, d53])] := by
    rw [dictSet_not_mem [(k1, Insight.mk [t11, t12, t13] [d11, d12, d13]), (k2, Insight.mk [t21, t22, t23] [d21, d22, d23]), (k3, Insight.mk [t31, t32, t33] [d31, d32, d33]), (k4, Insight.mk [t41, t42, t43] [d41, d42, d43])] k5 (Insight.mk [t51, t52, t53] [d51, d52, d53]) (by
      intro p hp
      simp only [List.mem_cons, List.not_mem_nil, or_false] at hp
      rcases hp with rfl | rfl | rfl | rfl
      · exact h15
      · exact h25
      · exact h35
      · exact h45)]
    rfl
  have hcb5 : closeBlock ({ keywords := [k1, k2, k3, k4, k5], structured_insights := [(k1, Insight.mk [t11, t12, t13] [d11, d12, d13]), (k2, Insight.mk [t21, t22, t23] [d21, d22, d23]), (k3, Insight.mk [t31, t32, t33] [d31, d32, d33]), (k4, Insight.mk [t41, t42, t43] [d41, d42, d43])], current_keyword := some k5, mode := Mode.insights, current_titles := [t51, t52, t53], current_insights := [d51, d52, d53] } : ScanState) = ({ keywords := [k1, k2, k3, k4, k5], structured_insights := [(k1, Insight.mk [t11, t12, t13] [d11, d12, d13]), (k2, Insight.mk [t21, t22, t23] [d21, d22, d23]), (k3, Insight.mk [t31, t32, t33] [d31, d32, d33]), (k4, Insight.mk [t41, t42, t43] [d41, d42, d43]), (k5, Insight.mk [t51, t52, t53] [d51, d52, d53])], current_keyword := some k5, mode := Mode.insights, current_titles := [t51, t52, t53], current_insights := [d51, d52, d53] } : ScanState) := by
    rw [closeBlock_write { keywords := [k1, k2, k3, k4, k5], structured_insights := [(k1, Insight.mk [t11, t12, t13] [d11, d12, d13]), (k2, Insight.mk [t21, t22, t23] [d21, d22, d23]), (k3, Insight.mk [t31, t32, t33] [d31, d32, d33]), (k4, Insight.mk [t41, t42, t43] [d41, d42, d43])], current_keyword := some k5, mode := Mode.insights, current_titles := [t51, t52, t53], current_insights := [d51, d52, d53] } k5 rfl hk5.1 (Or.inl (by simp))]
    rw [show dictSet (ScanState.structured_insights { keywords := [k1, k2, k3, k4, k5], structured_insights := [(k1, Insight.mk [t11, t12, t13] [d11, d12, d13]), (k2, Insight.mk [t21, t22, t23] [d21, d22, d23]), (k3, Insight.mk [t31, t32, t33] [d31, d32, d33]), (k4, Insight.mk [t41, t42, t43] [d41, d42, d43])], current_keyword := some k5, mode := Mode.insights, current_titles := [t51, t52, t53], current_insights := [d51, d52, d53] }) k5 (Insight.mk (ScanState.current_titles { keywords := [k1, k2, k3, k4, k5], structured_insights := [(k1, Insight.mk [t11, t12, t13] [d11, d12, d13]), (k2, Insight.mk [t21, t22, t23] [d21, d22, d23]), (k3, Insight.mk [t31, t32, t33] [d31, d32, d33]), (k4, Insight.mk [t41, t42, t43] [d41, d42, d43])], current_keyword := some k5, mode := Mode.insights, current_titles := [t51, t52, t53], current_insights := [d51, d52, d53] }) (ScanState.current_insights { keywords := [k1, k2, k3, k4, k5], structured_insights := [(k1, Insight.mk [t11, t12, t13] [d11, d12, d13]), (k2, Insight.mk [t21, t22, t23] [d21, d22, d23]), (k3, Insight.mk [t31, t32, t33] [d31, d32, d33]), (k4, Insight.mk [t41, t42, t43] [d41, d42, d43])], current_keyword := some k5, mode := Mode.insights, current_titles := [t51, t52, t53], current_insights := [d51, d52, d53] })) = [(k1, Insight.mk [t11, t12, t13] [d11, d12, d13]), (k2, Insight.mk [t21, t22, t23] [d21, d22, d23]), (k3, Insight.mk [t31, t32, t33] [d31, d32, d33]), (k4, Insight.mk [t41, t42, t43] [d41, d42, d43]), (k5, Insight.mk [t51, t52, t53] [d51, d52, d53])] from hd5]
  have hscan : scanLines initState (c2Lines k1 k2 k3 k4 k5 t11 t12 t13 d11 d12 d13 t21 t22 t23 d21 d22 d23 t31 t32 t33 d31 d32 d33 t41 t42 t43 d41 d42 d43 t51 t52 t53 d51 d52 d53) = Except.ok ({ keywords := [k1, k2, k3, k4, k5], structured_insights := [(k1, Insight.mk [t11, t12, t13] [d11, d12, d13]), (k2, Insight.mk [t21, t22, t23] [d21, d22, d23]), (k3, Insight.mk [t31, t32, t33] [d31, d32, d33]), (k4, Insight.mk [t41, t42, t43] [d41, d42, d43])], current_keyword := some k5, mode := Mode.insights, current_titles := [t51, t52, t53], current_insights := [d51, d52, d53] } : ScanState) := by
    calc scanLines initState (c2Lines k1 k2 k3 k4 k5 t11 t12 t13 d11 d12 d13 t21 t22 t23 d21 d22 d23 t31 t32 t33 d31 d32 d33 t41 t42 t43 d41 d42 d43 t51 t52 t53 d51 d52 d53)
        = scanLines ({ keywords := [], structured_insights := [], current_keyword := none, mode := Mode.keywords, current_titles := [], current_insights := [] } : ScanState)
            (joinComma [k1, k2, k3, k4, k5] :: (blockLines '1' k1 t11 t12 t13 d11 d12 d13 ++ (blockLines '2' k2 t21 t22 t23 d21 d22 d23 ++ (blockLines '3' k3 t31 t32 t33 d31 d32 d33 ++ (blockLines '4' k4 t41 t42 t43 d41 d42 d43 ++ (blockLines '5' k5 t51 t52 t53 d51 d52 d53 ++ [])))))) := scan_cons_ok _ _ _ _ e1
      _ = scanLines ({ keywords := [k1, k2, k3, k4, k5], structured_insights := [], current_keyword := none, mode := Mode.nothing, current_titles := [], current_insights := [] } : ScanState) (blockLines '1' k1 t11 t12 t13 d11 d12 d13 ++ (blockLines '2' k2 t21 t22 t23 d21 d22 d23 ++ (blockLines '3' k3 t31 t32 t33 d31 d32 d33 ++ (blockLines '4' k4 t41 t42 t43 d41 d42 d43 ++ (blockLines '5' k5 t51 t52 t53 d51 d52 d53 ++ []))))) := scan_cons_ok _ _ _ _ e2
      _ = scanLines (blockState ({ keywords := [k1, k2, k3, k4, k5], structured_insights := [], current_keyword := none, mode := Mode.nothing, current_titles := [], current_insights := [] } : ScanState) k1 Mode.insights [t11, t12, t13] [d11, d12, d13]) (blockLines '2' k2 t21 t22 t23 d21 d22 d23 ++ (blockLines '3' k3 t31 t32 t33 d31 d32 d33 ++ (blockLines '4' k4 t41 t42 t43 d41 d42 d43 ++ (blockLines '5' k5 t51 t52 t53 d51 d52 d53 ++ [])))) :=
          scan_block _ '1' k1 t11 t12 t13 d11 d12 d13 _ (by decide) hk1 ht11 ht12 ht13 hd11 hd12 hd13
      _ = scanLines ({ keywords := [k1, k2, k3, k4, k5], structured_insights := [], current_keyword := some k1, mode := Mode.insights, current_titles := [t11, t12, t13], current_insights := [d11, d12, d13] } : ScanState) (blockLines '2' k2 t21 t22 t23 d21 d22 d23 ++ (blockLines '3' k3 t31 t32 t33 d31 d32 d33 ++ (blockLines '4' k4 t41 t42 t43 d41 d42 d43 ++ (blockLines '5' k5 t51 t52 t53 d51 d52 d53 ++ [])))) := by rw [hb1]
      _ = scanLines (blockState ({ keywords := [k1, k2, k3, k4, k5], structured_insights := [], current_keyword := some k1, mode := Mode.insights, current_titles := [t11, t12, t13], current_insights := [d11, d12, d13] } : ScanState) k2 Mode.insights [t21, t22, t23] [d21, d22, d23]) (blockLines '3' k3 t31 t32 t33 d31 d32 d33 ++ (blockLines '4' k4 t41 t42 t43 d41 d42 d43 ++ (blockLines '5' k5 t51 t52 t53 d51 d52 d53 ++ []))) :=
          scan_block _ '2' k2 t21 t22 t23 d21 d22 d23 _ (by decide) hk2 ht21 ht22 ht23 hd21 hd22 hd23
      _ = scanLines ({ keywords := [k1, k2, k3, k4, k5], structured_insights := [(k1, Insight.mk [t11, t12, t13] [d11, d12, d13])], current_keyword := some k2, mode := Mode.insights, current_titles := [t21, t22, t23], current_insights := [d21, d22, d23] } : ScanState) (blockLines '3' k3 t31 t32 t33 d31 d32 d33 ++ (blockLines '4' k4 t41 t42 t43 d41 d42 d43 ++ (blockLines '5' k5 t51 t52 t53 d51 d52 d53 ++ []))) := by rw [hb2]
      _ = scanLines (blockState ({ keywords := [k1, k2, k3, k4, k5], structured_insights := [(k1, Insight.mk [t11, t12, t13] [d11, d12, d13])], current_keyword := some k2, mode := Mode.insights, current_titles := [t21, t22, t23], current_insights := [d21, d22, d23] } : ScanState) k3 Mode.insights [t31, t32, t33] [d31, d32, d33]) (blockLines '4' k4 t41 t42 t43 d41 d42 d43 ++ (blockLines '5' k5 t51 t52 t53 d51 d52 d53 ++ [])) :=
          scan_block _ '3' k3 t31 t32 t33 d31 d32 d33 _ (by decide) hk3 ht31 ht32 ht33 hd31 hd32 hd33
      _ = scanLines ({ keywords := [k1, k2, k3, k4, k5], structured_insights := [(k1, Insight.mk [t11, t12, t13] [d11, d12, d13]), (k2, Insight.mk [t21, t22, t23] [d21, d22, d23])], current_keyword := some k3, mode := Mode.insights, current_titles := [t31, t32, t33], current_insights := [d31, d32, d33] } : ScanState) (blockLines '4' k4 t41 t42 t43 d41 d42 d43 ++ (blockLines '5' k5 t51 t52 t53 d51 d52 d53 ++ [])) := by rw [hb3]
      _ = scanLines (blockState ({ keywords := [k1, k2, k3, k4, k5], structured_insights := [(k1, Insight.mk [t11, t12, t13] [d11, d12, d13]), (k2, Insight.mk [t21, t22, t23] [d21, d22, d23])], current_keyword := some k3, mode := Mode.insights, current_titles := [t31, t32, t33], current_insights := [d31, d32, d33] } : ScanState) k4 Mode.insights [t41, t42, t43] [d41, d42, d43]) (blockLines '5' k5 t51 t52 t53 d51 d52 d53 ++ []) :=
          scan_block _ '4' k4 t41 t42 t43 d41 d42 d43 _ (by decide) hk4 ht41 ht42 ht43 hd41 hd42 hd43
      _ = scanLines ({ keywords := [k1, k2, k3, k4, k5], structured_insights := [(k1, Insight.mk [t11, t12, t13] [d11, d12, d13]), (k2, Insight.mk [t21, t22, t23] [d21, d22, d23]), (k3, Insight.mk [t31, t32, t33] [d31, d32, d33])], current_keyword := some k4, mode := Mode.insights, current_titles := [t41, t42, t43], current_insights := [d41, d42, d43] } : ScanState) (blockLines '5' k5 t51 t52 t53 d51 d52 d53 ++ []) := by rw [hb4]
      _ = scanLines (blockState ({ keywords := [k1, k2, k3, k4, k5], structured_insights := [(k1, Insight.mk [t11, t12, t13] [d11, d12, d13]), (k2, Insight.mk [t21, t22, t23] [d21, d22, d23]), (k3, Insight.mk [t31, t32, t33] [d31, d32, d33])], current_keyword := some k4, mode := Mode.insights, current_titles := [t41, t42, t43], current_insights := [d41, d42, d43] } : ScanState) k5 Mode.insights [t51, t52, t53] [d51, d52, d53]) [] :=
          scan_block _ '5' k5 t51 t52 t53 d51 d52 d53 _ (by decide) hk5 ht51 ht52 ht53 hd51 hd52 hd53
      _ = scanLines ({ keywords := [k1, k2, k3, k4, k5], structured_insights := [(k1, Insight.mk [t11, t12, t13] [d11, d12, d13]), (k2, Insight.mk [t21, t22, t23] [d21, d22, d23]), (k3, Insight.mk [t31, t32, t33] [d31, d32, d33]), (k4, Insight.mk [t41, t42, t43] [d41, d42, d43])], current_keyword := some k5, mode := Mode.insights, current_titles := [t51, t52, t53], current_insights := [d51, d52, d53] } : ScanState) [] := by rw [hb5]
      _ = Except.ok ({ keywords := [k1, k2, k3, k4, k5], structured_insights := [(k1, Insight.mk [t11, t12, t13] [d11, d12, d13]), (k2, Insight.mk [t21, t22, t23] [d21, d22, d23]), (k3, Insight.mk [t31, t32, t33] [d31, d32, d33]), (k4, Insight.mk [t41, t42, t43] [d41, d42, d43])], current_keyword := some k5, mode := Mode.insights, current_titles := [t51, t52, t53], current_insights := [d51, d52, d53] } : ScanState) := rfl
  simp only [parse_response, hlines, hscan]
  rw [hcb5]

/-! ### Invariants of the scan used by the safety claims -/

theorem okInj {a b : ScanState} (h : Except.ok (ε := Unit) a = Except.ok b) : a = b := by
  injection h

theorem closeBlock_keywords (st : ScanState) : (closeBlock st).keywords = st.keywords := by
  rw [closeBlock]
  cases st.current_keyword with
  | none => rfl
  | some k =>
    dsimp only
    by_cases hc : (!k.isEmpty && (!st.current_titles.isEmpty || !st.current_insights.isEmpty)) = true
    · rw [if_pos hc]
    · rw [if_neg hc]

set_option maxHeartbeats 1000000 in
theorem step_keywords_inv (st st' : ScanState) (raw : PyStr)
    (h : step st raw = Except.ok st') :
    st'.keywords = st.keywords ∨ st'.keywords = parseKeywordList (pyStrip raw) := by
  unfold step at h
  by_cases h1 : pyStrip raw = []
  · rw [if_pos h1] at h; left; rw [← okInj h]
  rw [if_neg h1] at h
  by_cases h2 : startsWith kwMarkerStr (pyStrip raw) = true
  · rw [if_pos h2] at h; left; rw [← okInj h]
  rw [if_neg h2] at h
  by_cases h3 : st.mode = Mode.keywords ∧ startsWith starStarStr (pyStrip raw) = false
  · rw [if_pos h3] at h; right; rw [← okInj h]
  rw [if_neg h3] at h
  by_cases h4 : startsWith kwHeaderStr (pyStrip raw) = true ∧ (pyStrip raw).elem ':' = true
  · rw [if_pos h4] at h
    cases hsp : splitFirst ':' (pyStrip raw) with
    | some pr =>
      rw [hsp] at h
      left
      rw [← okInj h]
      exact closeBlock_keywords st
    | none => rw [hsp] at h; exact absurd h (by simp)
  rw [if_neg h4] at h
  by_cases h5 : startsWith titlesMarkerStr (pyStrip raw) = true
  · rw [if_pos h5] at h; left; rw [← okInj h]
  rw [if_neg h5] at h
  by_cases h6 : startsWith actionsMarkerStr (pyStrip raw) = true
  · rw [if_pos h6] at h; left; rw [← okInj h]
  rw [if_neg h6] at h
  by_cases h7 : st.mode = Mode.titles ∧ kwTruthy st.current_keyword = true
  · rw [if_pos h7] at h
    by_cases h8 : firstIsDigit (pyStrip raw) = true
    · rw [if_pos h8] at h
      cases hsp : splitFirst '.' (pyStrip raw) with
      | some pr =>
        rw [hsp] at h
        dsimp only at h
        by_cases h9 : pyStrip pr.2 = []
        · rw [if_pos h9] at h; left; rw [← okInj h]
        · rw [if_neg h9] at h; left; rw [← okInj h]
      | none => rw [hsp] at h; exact absurd h (by simp)
    · rw [if_neg h8] at h
      by_cases h10 : startsWith dashSpaceStr (pyStrip raw) = true
      · rw [if_pos h10] at h
        by_cases h11 : pyStrip ((pyStrip raw).drop 2) = []
        · rw [if_pos h11] at h; left; rw [← okInj h]
        · rw [if_neg h11] at h; left; rw [← okInj h]
      · rw [if_neg h10] at h; left; rw [← okInj h]
  rw [if_neg h7] at h
  by_cases h12 : st.mode = Mode.insights ∧ kwTruthy st.current_keyword = true
  · rw [if_pos h12] at h
    by_cases h13 : firstIsDigit (pyStrip raw) = true
    · rw [if_pos h13] at h
      cases hsp : splitFirst '.' (pyStrip raw) with
      | some pr =>
        rw [hsp] at h
        dsimp only at h
        by_cases h14 : pyStrip pr.2 = []
        · rw [if_pos h14] at h; left; rw [← okInj h]
        · rw [if_neg h14] at h; left; rw [← okInj h]
      | none => rw [hsp] at h; exact absurd h (by simp)
    · rw [if_neg h13] at h
      by_cases h15 : startsWith dashSpaceStr (pyStrip raw) = true
      · rw [if_pos h15] at h
        by_cases h16 : pyStrip ((pyStrip raw).drop 2) = []
        · rw [if_pos h16] at h; left; rw [← okInj h]
        · rw [if_neg h16] at h; left; rw [← okInj h]
      · rw [if_neg h15] at h
        by_cases h17 : st.current_insights ≠ [] ∧ startsWith starStarStr (pyStrip raw) = false
        · rw [if_pos h17] at h; left; rw [← okInj h]
        · rw [if_neg h17] at h; left; rw [← okInj h]
  · rw [if_neg h12] at h; left; rw [← okInj h]

theorem scan_keywords_inv (lines : List PyStr) (st st' : ScanState)
    (h : scanLines st lines = Except.ok st') :
    st'.keywords = st.keywords ∨ ∃ l ∈ lines, st'.keywords = parseKeywordList (pyStrip l) := by
  induction lines generalizing st with
  | nil =>
    simp only [scanLines] at h
    left; rw [← okInj h]
  | cons l ls ih =>
    simp only [scanLines] at h
    cases hstep : step st l with
    | error e => rw [hstep] at h; simp at h
    | ok st1 =>
      rw [hstep] at h
      rcases ih st1 h with h1 | ⟨l', hl', h2⟩
      · rcases step_keywords_inv st st1 l hstep with h3 | h4
        · left; rw [h1, h3]
        · right; exact ⟨l, List.mem_cons_self _ _, by rw [h1, h4]⟩
      · right; exact ⟨l', List.mem_cons_of_mem _ hl', h2⟩

/-! ### Prefix facts used to discharge branch conditions -/

theorem sw_starstar_of_marker {l : PyStr} (h : startsWith kwMarkerStr l = true) :
    startsWith starStarStr l = true :=
  sw_mono starStarStr (("KEYWORDS IDENTIFIED:**").data) l h

theorem sw_starstar_of_header {l : PyStr} (h : startsWith kwHeaderStr l = true) :
    startsWith starStarStr l = true :=
  sw_mono starStarStr (("KEYWORD").data) l h

theorem sw_starstar_of_titles {l : PyStr} (h : startsWith titlesMarkerStr l = true) :
    startsWith starStarStr l = true :=
  sw_mono starStarStr (("INSIGHTS:**").data) l h

theorem sw_starstar_of_actions {l : PyStr} (h : startsWith actionsMarkerStr l = true) :
    startsWith starStarStr l = true :=
  sw_mono starStarStr (("ACTIONS:**").data) l h

/-! ### The claims -/

/-- C1: the decoder is total.  For every input string the line scan either
succeeds, in which case the returned record is assembled from the scanned
state after the final block close with no error, or the scan faults, in which
case the caught-fault fallback record is returned.  In both cases a ParseResult
is produced; no exception crosses the boundary of parse_response. -/
theorem C1_decode_never_raises (s : PyStr) :
    (∃ st, scanLines initState (pyLines s) = Except.ok st ∧
       parse_response s =
         ParseResult.mk (closeBlock st).keywords (closeBlock st).structured_insights none) ∨
    (scanLines initState (pyLines s) = Except.error () ∧ parse_response s = failResult) := by
  cases hs : scanLines initState (pyLines s) with
  | ok st =>
    left
    refine ⟨st, rfl, ?_⟩
    unfold parse_response
    rw [hs]
  | error e =>
    right
    cases e
    refine ⟨rfl, ?_⟩
    unfold parse_response
    rw [hs]

/-- Input on which the scan faults: in titles mode a digit-initial line
without a period makes line.split(".", 1)[1] raise IndexError. -/
def c3FaultText : PyStr := ("**KEYWORD 1: Alpha**\n**INSIGHTS:**\n1 no period here").data

/-- C3 counterexample: on this input an internal fault does occur during
scanning, and the decoder returns empty keywords and insights, but its error
field is NOT the string "parse failed": the except-branch of the source
returns a dict with no error key at all. -/
theorem C3_counterexample :
    scanLines initState (pyLines c3FaultText) = Except.error () ∧
    (parse_response c3FaultText).error = none ∧
    (parse_response c3FaultText).error ≠ some (("parse failed").data) :=
  ⟨rfl, rfl, by decide⟩

/-- C3 (amended): on any input whose scan faults, the decoder returns the
record with empty keywords, empty insights and an unset error field, never
propagating the fault. -/
theorem C3_amended_fault_fallback (s : PyStr)
    (h : scanLines initState (pyLines s) = Except.error ()) :
    parse_response s = failResult := by
  unfold parse_response
  rw [h]

/-- Witness for C3: the amended theorem applied at the faulting input. -/
theorem C3_amended_fault_fallback_witness :
    parse_response c3FaultText = failResult :=
  C3_amended_fault_fallback c3FaultText rfl

/-- Input whose keyword list line declares six keywords. -/
def c4SixText : PyStr := ("**KEYWORDS IDENTIFIED:**\na, b, c, d, e, f").data

/-- C4 counterexample: the decoder puts no bound on the keyword count; a
keyword-list line with six comma-separated pieces yields six keywords,
refuting length at most 5. -/
theorem C4_counterexample :
    (parse_response c4SixText).keywords.length = 6 ∧
    ¬((parse_response c4SixText).keywords.length ≤ 5) := by
  refine ⟨rfl, by decide⟩

/-- C4 (amended): the keywords sequence of the result is either empty or is
exactly the comma-split, trimmed, non-empty pieces of one stripped input
line; no fixed length bound (such as 5) is enforced. -/
theorem C4_amended_keywords_from_one_line (s : PyStr) :
    (parse_response s).keywords = [] ∨
    ∃ l ∈ pyLines s, (parse_response s).keywords = parseKeywordList (pyStrip l) := by
  cases hs : scanLines initState (pyLines s) with
  | error e =>
    cases e
    have hpr : parse_response s = failResult := by
      unfold parse_response
      rw [hs]
    rw [hpr]
    left
    rfl
  | ok st =>
    have hpr : parse_response s =
        ParseResult.mk (closeBlock st).keywords (closeBlock st).structured_insights none := by
      unfold parse_response
      rw [hs]
    rw [hpr]
    rcases scan_keywords_inv (pyLines s) initState st hs with h1 | ⟨l, hl, h2⟩
    · left
      show (closeBlock st).keywords = []
      rw [closeBlock_keywords st, h1]
      rfl
    · right
      refine ⟨l, hl, ?_⟩
      show (closeBlock st).keywords = parseKeywordList (pyStrip l)
      rw [closeBlock_keywords st, h2]

/-- Input with two keyword blocks of the same name and a final block whose
accumulators stay empty. -/
def c7DupText : PyStr :=
  ("**KEYWORD 1: Alpha**\n**INSIGHTS:**\n1. one\n**KEYWORD 2: Alpha**\n**INSIGHTS:**\n1. two\n**KEYWORD 3: Beta**").data

/-- C7: later block wins on a duplicate keyword name.  First, the dict
assignment of the block close always makes the last written value the one
found under the key; second, a block whose accumulators are both empty is
dropped by the block close; third, on a concrete input with two blocks named
Alpha (titles "one" and "two" respectively) followed by an empty block named
Beta, the final mapping holds exactly Alpha with the second block's data. -/
theorem C7_later_block_wins :
    (∀ (d : List (PyStr × Insight)) (k : PyStr) (v : Insight),
       dictGet k (dictSet d k v) = some v) ∧
    (∀ st : ScanState, st.current_titles = [] → st.current_insights = [] →
       closeBlock st = st) ∧
    parse_response c7DupText =
      ParseResult.mk [] [((("Alpha").data), Insight.mk [("two").data] [])] none :=
  ⟨fun d k v => dictGet_set_self d k v,
   fun st h1 h2 => closeBlock_skip st h1 h2,
   rfl⟩

/-- Witness for C7: the overwrite law and the empty-block drop at concrete
values. -/
theorem C7_later_block_wins_witness :
    dictGet (("A").data) (dictSet [] (("A").data) (Insight.mk [] [])) =
      some (Insight.mk [] []) ∧
    closeBlock initState = initState :=
  ⟨C7_later_block_wins.1 [] (("A").data) (Insight.mk [] []),
   C7_later_block_wins.2.1 initState rfl rfl⟩

/-- C9 (amended): in details mode with a keyword set but no detail item
appended yet, a line that is non-empty, whose FIRST CHARACTER is not a digit,
that does not start with the dash-space bullet, and that does not start with
the bold marker, is discarded: the scan state is entirely unchanged.  (The
code's item test is first-character-digit or dash-space, not the
digit-then-period pattern of the original claim; see the counterexample.) -/
theorem C9_orphan_continuation_discarded (st : ScanState) (raw l : PyStr)
    (hl : pyStrip raw = l) (hne : l ≠ [])
    (hmode : st.mode = Mode.insights) (hkw : kwTruthy st.current_keyword = true)
    (hempty : st.current_insights = [])
    (hd : firstIsDigit l = false) (hb : startsWith dashSpaceStr l = false)
    (hss : startsWith starStarStr l = false) :
    step st raw = Except.ok st := by
  have hfalse : ∀ (b : startsWith starStarStr l = true), False := by
    intro b
    rw [b] at hss
    exact absurd hss (by simp)
  have hnm : ¬(startsWith kwMarkerStr l = true) :=
    fun hcon => hfalse (sw_starstar_of_marker hcon)
  have hkwb : ¬(st.mode = Mode.keywords ∧ startsWith starStarStr l = false) := by
    intro hcon
    rw [hmode] at hcon
    exact absurd hcon.1 (by simp)
  have hhd : ¬(startsWith kwHeaderStr l = true ∧ l.elem ':' = true) :=
    fun hcon => hfalse (sw_starstar_of_header hcon.1)
  have htm : ¬(startsWith titlesMarkerStr l = true) :=
    fun hcon => hfalse (sw_starstar_of_titles hcon)
  have ham : ¬(startsWith actionsMarkerStr l = true) :=
    fun hcon => hfalse (sw_starstar_of_actions hcon)
  have hti : ¬(st.mode = Mode.titles ∧ kwTruthy st.current_keyword = true) := by
    intro hcon
    rw [hmode] at hcon
    exact absurd hcon.1 (by simp)
  have hdig : ¬(firstIsDigit l = true) := by rw [hd]; simp
  have hdash : ¬(startsWith dashSpaceStr l = true) := by rw [hb]; simp
  have hcont : ¬(st.current_insights ≠ [] ∧ startsWith starStarStr l = false) := by
    intro hcon
    exact absurd hempty hcon.1
  simp only [step, hl]
  rw [if_neg hne, if_neg hnm, if_neg hkwb, if_neg hhd, if_neg htm, if_neg ham,
    if_neg hti, if_pos ⟨hmode, hkw⟩, if_neg hdig, if_neg hdash, if_neg hcont]

/-- Witness for C9: a concrete orphan continuation line before any detail
bullet is dropped. -/
theorem C9_orphan_continuation_discarded_witness :
    step (ScanState.mk [] [] (some (("Alpha").data)) Mode.insights [] [])
      (("orphan text").data) =
      Except.ok (ScanState.mk [] [] (some (("Alpha").data)) Mode.insights [] []) :=
  C9_orphan_continuation_discarded _ _ (("orphan text").data)
    (by decide) (by decide) rfl (by decide) rfl (by decide) (by decide) (by decide)

/-- C10: a line starting with the literal keywords marker is always handled
by the marker rule, even though it also starts with the keyword-header prefix
and may contain a colon: the step only switches the mode to keyword
collection, leaving the current keyword, the accumulators, and the stored
insights untouched and performing no block close. -/
theorem C10_marker_beats_header (st : ScanState) (raw : PyStr)
    (h : startsWith kwMarkerStr (pyStrip raw) = true) :
    startsWith kwHeaderStr (pyStrip raw) = true ∧
    (pyStrip raw).elem ':' = true ∧
    step st raw = Except.ok { st with mode := Mode.keywords } := by
  obtain ⟨t, ht⟩ := startsWith_eq_append _ _ h
  refine ⟨?_, ?_, step_marker st raw t ht⟩
  · rw [ht]
    show startsWith kwHeaderStr ((kwHeaderStr ++ ("S IDENTIFIED:**").data) ++ t) = true
    rw [List.append_assoc]
    exact startsWith_self_append _ _
  · rw [ht]
    rfl

/-- Witness for C10: a marker line with trailing text, in the middle of a
block with non-empty accumulators: only the mode changes. -/
theorem C10_marker_beats_header_witness :
    step (ScanState.mk [] [] (some (("Alpha").data)) Mode.insights [("t").data] [("d").data])
      (("**KEYWORDS IDENTIFIED:** extra: text").data) =
      Except.ok (ScanState.mk [] [] (some (("Alpha").data)) Mode.keywords
        [("t").data] [("d").data]) :=
  (C10_marker_beats_header _ _ (by decide)).2.2

/-- The decoder state used in the C5 examples: titles mode with keyword Alpha. -/
def c5TitlesState : ScanState :=
  ScanState.mk [] [] (some (("Alpha").data)) Mode.titles [] []

/-- The trigger pattern exactly as the claim words it: a digit followed by a
period, or a dash-space bullet. -/
def specNumberingBullet (l : PyStr) : Bool :=
  (match l with
   | c :: '.' :: _ => c.isDigit
   | _ => false) || startsWith dashSpaceStr l

/-- C5 counterexample: the line "1x. hello" does not match the claimed
digit-then-period or dash-bullet pattern, yet in titles mode the decoder
treats it as a title item and appends "hello" (the text after the first
period anywhere in the line). -/
theorem C5_counterexample :
    specNumberingBullet (("1x. hello").data) = false ∧
    step c5TitlesState (("1x. hello").data) =
      Except.ok (ScanState.mk [] [] (some (("Alpha").data)) Mode.titles
        [("hello").data] []) :=
  ⟨by decide, rfl⟩

/-- C5 (amended): in titles mode with a truthy current keyword, on a line
that fires no marker rule, the step is characterised as follows: the line is
treated as a title item exactly when its first character is a digit or it
starts with the dash-space bullet.  For a digit-initial line the content is
the trimmed text after the first period anywhere in the line, and the scan
faults when the line has no period at all; for a bullet line the content is
the trimmed text after the bullet; in both cases the content is appended only
when non-empty; every other line leaves the state unchanged. -/
theorem C5_amended_title_item (st : ScanState) (raw l : PyStr)
    (hl : pyStrip raw = l) (hne : l ≠ [])
    (hmode : st.mode = Mode.titles) (hkw : kwTruthy st.current_keyword = true)
    (hnm : startsWith kwMarkerStr l = false)
    (hhd : ¬(startsWith kwHeaderStr l = true ∧ l.elem ':' = true))
    (htm : startsWith titlesMarkerStr l = false)
    (ham : startsWith actionsMarkerStr l = false) :
    (∀ pre rest2, firstIsDigit l = true → splitFirst '.' l = some (pre, rest2) →
       pyStrip rest2 ≠ [] →
       step st raw = Except.ok { st with current_titles := st.current_titles ++ [pyStrip rest2] }) ∧
    (∀ pre rest2, firstIsDigit l = true → splitFirst '.' l = some (pre, rest2) →
       pyStrip rest2 = [] → step st raw = Except.ok st) ∧
    (firstIsDigit l = true → splitFirst '.' l = none → step st raw = Except.error ()) ∧
    (firstIsDigit l = false → startsWith dashSpaceStr l = true →
       pyStrip (l.drop 2) ≠ [] →
       step st raw = Except.ok { st with current_titles := st.current_titles ++ [pyStrip (l.drop 2)] }) ∧
    (firstIsDigit l = false → startsWith dashSpaceStr l = true →
       pyStrip (l.drop 2) = [] → step st raw = Except.ok st) ∧
    (firstIsDigit l = false → startsWith dashSpaceStr l = false →
       step st raw = Except.ok st) := by
  have hnm' : ¬(startsWith kwMarkerStr l = true) := by rw [hnm]; simp
  have htm' : ¬(startsWith titlesMarkerStr l = true) := by rw [htm]; simp
  have ham' : ¬(startsWith actionsMarkerStr l = true) := by rw [ham]; simp
  have hkwb : ¬(st.mode = Mode.keywords ∧ startsWith starStarStr l = false) := by
    intro hcon
    rw [hmode] at hcon
    exact absurd hcon.1 (by simp)
  have hstep : step st raw =
      (if firstIsDigit l = true then
        match splitFirst '.' l with
        | some pr =>
          if pyStrip pr.2 = [] then Except.ok st
          else Except.ok { st with current_titles := st.current_titles ++ [pyStrip pr.2] }
        | none => Except.error ()
      else if startsWith dashSpaceStr l = true then
        if pyStrip (l.drop 2) = [] then Except.ok st
        else Except.ok { st with current_titles := st.current_titles ++ [pyStrip (l.drop 2)] }
      else Except.ok st) := by
    simp only [step, hl]
    rw [if_neg hne, if_neg hnm', if_neg hkwb, if_neg hhd, if_neg htm', if_neg ham',
      if_pos ⟨hmode, hkw⟩]
  refine ⟨?_, ?_, ?_, ?_, ?_, ?_⟩
  · intro pre rest2 hdig hspl hnz
    rw [hstep, if_pos hdig, hspl]
    dsimp only
    rw [if_neg hnz]
  · intro pre rest2 hdig hspl hz
    rw [hstep, if_pos hdig, hspl]
    dsimp only
    rw [if_pos hz]
  · intro hdig hnone
    rw [hstep, if_pos hdig, hnone]
  · intro hdig hdash hnz
    rw [hstep, if_neg (by rw [hdig]; simp : ¬(firstIsDigit l = true)), if_pos hdash, if_neg hnz]
  · intro hdig hdash hz
    rw [hstep, if_neg (by rw [hdig]; simp : ¬(firstIsDigit l = true)), if_pos hdash, if_pos hz]
  · intro hdig hdash
    rw [hstep, if_neg (by rw [hdig]; simp : ¬(firstIsDigit l = true)),
      if_neg (by rw [hdash]; simp : ¬(startsWith dashSpaceStr l = true))]

/-- Witness for C5: a digit-initial numbered line appends its trimmed content. -/
theorem C5_amended_title_item_witness :
    step c5TitlesState (("1. hi").data) =
      Except.ok (ScanState.mk [] [] (some (("Alpha").data)) Mode.titles
        [("hi").data] []) := by
  have h := (C5_amended_title_item c5TitlesState (("1. hi").data) (("1. hi").data)
    rfl (by decide) rfl (by decide) (by decide) (by decide) (by decide)
    (by decide)).1 ['1'] ((" hi").data) (by decide) (by decide) (by decide)
  rw [h]
  rfl

/-- The keyword-list example input of the claim. -/
def c6MarketText : PyStr :=
  ("**KEYWORDS IDENTIFIED:**\n[Market Analysis, Growth Strategy]").data

/-- C6: while in keyword-collection mode, a line not starting with the bold
marker is parsed as the keyword list: brackets stripped, split on commas,
pieces trimmed, empty pieces dropped, the result assigned to keywords and the
mode reset; no deduplication is performed (a repeated keyword appears twice);
and the bracketed example line yields exactly the two declared keywords. -/
theorem C6_keyword_list_rule (st : ScanState) (raw l : PyStr)
    (hm : st.mode = Mode.keywords) (hl : pyStrip raw = l) (hne : l ≠ [])
    (hsw : startsWith starStarStr l = false) :
    step st raw = Except.ok { st with keywords := parseKeywordList l, mode := Mode.nothing } ∧
    parseKeywordList (("X, X").data) = [("X").data, ("X").data] ∧
    parse_response c6MarketText =
      ParseResult.mk [("Market Analysis").data, ("Growth Strategy").data] [] none := by
  have hfalse : ∀ (b : startsWith starStarStr l = true), False := by
    intro b
    rw [b] at hsw
    exact absurd hsw (by simp)
  have hnm : ¬(startsWith kwMarkerStr l = true) :=
    fun hcon => hfalse (sw_starstar_of_marker hcon)
  refine ⟨?_, rfl, rfl⟩
  simp only [step, hl]
  rw [if_neg hne, if_neg hnm, if_pos ⟨hm, hsw⟩]

/-- Witness for C6: the bracketed two-keyword line parsed in keywords mode. -/
theorem C6_keyword_list_rule_witness :
    step (ScanState.mk [] [] none Mode.keywords [] [])
      (("[Market Analysis, Growth Strategy]").data) =
      Except.ok (ScanState.mk [("Market Analysis").data, ("Growth Strategy").data]
        [] none Mode.nothing [] []) := by
  have h := (C6_keyword_list_rule (ScanState.mk [] [] none Mode.keywords [] [])
    (("[Market Analysis, Growth Strategy]").data)
    (("[Market Analysis, Growth Strategy]").data)
    rfl rfl (by decide) (by decide)).1
  rw [h]
  rfl

/-- C8 (amended): in details mode with a truthy current keyword and at least
one detail already collected, a non-empty line whose FIRST CHARACTER is not a
digit, that does not start with the dash-space bullet, and that does not
start with the bold marker, is appended to the most recent detail entry with
a single separating space, and the number of detail entries does not change.
(The code's item test is first-character-digit or dash-space, not the
digit-then-period pattern of the original claim; see the counterexample.) -/
theorem C8_detail_continuation (st : ScanState) (raw l : PyStr)
    (hl : pyStrip raw = l) (hne : l ≠ [])
    (hmode : st.mode = Mode.insights) (hkw : kwTruthy st.current_keyword = true)
    (hprev : st.current_insights ≠ [])
    (hd : firstIsDigit l = false) (hb : startsWith dashSpaceStr l = false)
    (hss : startsWith starStarStr l = false) :
    step st raw = Except.ok { st with current_insights := updateLast (fun x => x ++ ' ' :: l) st.current_insights } ∧
    (updateLast (fun x => x ++ ' ' :: l) st.current_insights).length =
      st.current_insights.length := by
  have hfalse : ∀ (b : startsWith starStarStr l = true), False := by
    intro b
    rw [b] at hss
    exact absurd hss (by simp)
  have hnm : ¬(startsWith kwMarkerStr l = true) :=
    fun hcon => hfalse (sw_starstar_of_marker hcon)
  have hkwb : ¬(st.mode = Mode.keywords ∧ startsWith starStarStr l = false) := by
    intro hcon
    rw [hmode] at hcon
    exact absurd hcon.1 (by simp)
  have hhd : ¬(startsWith kwHeaderStr l = true ∧ l.elem ':' = true) :=
    fun hcon => hfalse (sw_starstar_of_header hcon.1)
  have htm : ¬(startsWith titlesMarkerStr l = true) :=
    fun hcon => hfalse (sw_starstar_of_titles hcon)
  have ham : ¬(startsWith actionsMarkerStr l = true) :=
    fun hcon => hfalse (sw_starstar_of_actions hcon)
  have hti : ¬(st.mode = Mode.titles ∧ kwTruthy st.current_keyword = true) := by
    intro hcon
    rw [hmode] at hcon
    exact absurd hcon.1 (by simp)
  have hdig : ¬(firstIsDigit l = true) := by rw [hd]; simp
  have hdash : ¬(startsWith dashSpaceStr l = true) := by rw [hb]; simp
  refine ⟨?_, updateLast_length _ _⟩
  simp only [step, hl]
  rw [if_neg hne, if_neg hnm, if_neg hkwb, if_neg hhd, if_neg htm, if_neg ham,
    if_neg hti, if_pos ⟨hmode, hkw⟩, if_neg hdig, if_neg hdash,
    if_pos ⟨hprev, hss⟩]

/-- Witness for C8: a continuation line is glued onto the last detail. -/
theorem C8_detail_continuation_witness :
    step (ScanState.mk [] [] (some (("Alpha").data)) Mode.insights [] [("base").data])
      (("more text").data) =
      Except.ok (ScanState.mk [] [] (some (("Alpha").data)) Mode.insights []
        [("base more text").data]) := by
  have h := (C8_detail_continuation
    (ScanState.mk [] [] (some (("Alpha").data)) Mode.insights [] [("base").data])
    (("more text").data) (("more text").data)
    rfl (by decide) rfl (by decide) (by decide) (by decide) (by decide) (by decide)).1
  rw [h]
  rfl

/-- Witness for C2: a concrete five-block well-formed response decodes to the
five keywords and their blocks. -/
theorem C2_wellformed_sample_witness :
    parse_response (c2Text ("Alpha").data ("Beta").data ("Gamma").data ("Delta").data ("Epsilon").data ("a1").data
      ("a2").data ("a3").data ("x1").data ("x2").data ("x3").data ("b1").data
      ("b2").data ("b3").data ("y1").data ("y2").data ("y3").data ("c1").data
      ("c2").data ("c3").data ("z1").data ("z2").data ("z3").data ("d1").data
      ("d2").data ("d3").data ("u1").data ("u2").data ("u3").data ("e1").data
      ("e2").data ("e3").data ("v1").data ("v2").data ("v3").data) =
    ParseResult.mk
      [("Alpha").data, ("Beta").data, ("Gamma").data, ("Delta").data, ("Epsilon").data]
      [(("Alpha").data, Insight.mk [("a1").data, ("a2").data, ("a3").data] [("x1").data, ("x2").data, ("x3").data]),
       (("Beta").data, Insight.mk [("b1").data, ("b2").data, ("b3").data] [("y1").data, ("y2").data, ("y3").data]),
       (("Gamma").data, Insight.mk [("c1").data, ("c2").data, ("c3").data] [("z1").data, ("z2").data, ("z3").data]),
       (("Delta").data, Insight.mk [("d1").data, ("d2").data, ("d3").data] [("u1").data, ("u2").data, ("u3").data]),
       (("Epsilon").data, Insight.mk [("e1").data, ("e2").data, ("e3").data] [("v1").data, ("v2").data, ("v3").data])]
      none :=
  C2_wellformed_sample ("Alpha").data ("Beta").data ("Gamma").data ("Delta").data ("Epsilon").data ("a1").data
      ("a2").data ("a3").data ("x1").data ("x2").data ("x3").data ("b1").data
      ("b2").data ("b3").data ("y1").data ("y2").data ("y3").data ("c1").data
      ("c2").data ("c3").data ("z1").data ("z2").data ("z3").data ("d1").data
      ("d2").data ("d3").data ("u1").data ("u2").data ("u3").data ("e1").data
      ("e2").data ("e3").data ("v1").data ("v2").data ("v3").data
    (by decide) (by decide) (by decide) (by decide) (by decide) (by decide)
    (by decide) (by decide) (by decide) (by decide) (by decide) (by decide)
    (by decide) (by decide) (by decide) (by decide) (by decide) (by decide)
    (by decide) (by decide) (by decide) (by decide) (by decide) (by decide)
    (by decide) (by decide) (by decide) (by decide) (by decide) (by decide)
    (by decide) (by decide) (by decide) (by decide) (by decide) (by decide)

/-- The decoder state used in the C8 counterexample: details mode with
keyword Alpha and one detail already collected. -/
def c8DetailsState : ScanState :=
  ScanState.mk [] [] (some (("Alpha").data)) Mode.insights [] [("base").data]

/-- The decoder state used in the C9 counterexample: details mode with
keyword Alpha and no detail collected yet. -/
def c9DetailsState : ScanState :=
  ScanState.mk [] [] (some (("Alpha").data)) Mode.insights [] []

/-- C8 counterexample: with one detail already collected, the lines
"1x hello" and "1x. more" match neither the claimed digit-then-period nor
dash-bullet pattern and do not start with the bold marker, yet neither is
appended to the last detail as a continuation: "1x hello" (digit-initial, no
period) faults the scan, and "1x. more" is appended as a NEW detail entry,
so the count of detail entries increases. -/
theorem C8_counterexample :
    specNumberingBullet (("1x hello").data) = false ∧
    startsWith starStarStr (("1x hello").data) = false ∧
    step c8DetailsState (("1x hello").data) = Except.error () ∧
    specNumberingBullet (("1x. more").data) = false ∧
    startsWith starStarStr (("1x. more").data) = false ∧
    step c8DetailsState (("1x. more").data) =
      Except.ok (ScanState.mk [] [] (some (("Alpha").data)) Mode.insights []
        [("base").data, ("more").data]) ∧
    ([("base").data, ("more").data] : List PyStr).length ≠
      c8DetailsState.current_insights.length :=
  ⟨by decide, by decide, rfl, by decide, by decide, rfl, by decide⟩

/-- C9 counterexample: with no detail collected yet, the lines "1x hello"
and "1x. more" look like continuations under the claimed digit-then-period
or dash-bullet pattern (they match neither, and do not start with the bold
marker), yet they are not discarded with the state unchanged: "1x hello"
faults the scan, and "1x. more" contributes a detail entry. -/
theorem C9_counterexample :
    specNumberingBullet (("1x hello").data) = false ∧
    startsWith starStarStr (("1x hello").data) = false ∧
    step c9DetailsState (("1x hello").data) = Except.error () ∧
    specNumberingBullet (("1x. more").data) = false ∧
    startsWith starStarStr (("1x. more").data) = false ∧
    step c9DetailsState (("1x. more").data) =
      Except.ok (ScanState.mk [] [] (some (("Alpha").data)) Mode.insights []
        [("more").data]) :=
  ⟨by decide, by decide, rfl, by decide, by decide, rfl⟩
